import Mathlib

/-!
Verification of the weather-dome Impact Scoring & Self-Calibration Engine.

This file gives a shallow embedding, in Lean 4, of the core scoring and
state-tracking code of the repository (`backend/app/services/*.py` plus the
configuration and zone tables), and proves or refutes the specification's
claims about it.  Python floats are modelled by `ℚ`; optional floats by
`Option ℚ`; Python truthiness, `int()` truncation and `round()` banker's
rounding are modelled explicitly below.
-/

namespace WeatherDome

/-- Truthiness of a Python optional float: `None` and `0.0` are falsy. -/
def truthy : Option ℚ → Bool
  | none => false
  | some v => v != 0

/-- Python `x or d` for an optional float `x`: yields `d` when `x` is falsy
(`None` or `0.0`), otherwise the value of `x`. -/
def pyOr (x : Option ℚ) (d : ℚ) : ℚ :=
  match x with
  | none => d
  | some v => if v = 0 then d else v

/-- Python `int(x)`: truncation toward zero. -/
def pyInt (x : ℚ) : ℤ :=
  if x < 0 then -⌊-x⌋ else ⌊x⌋

/-- Nearest integer, ties to even — the rounding used by Python `round`. -/
def roundHalfEven (x : ℚ) : ℤ :=
  let f := ⌊x⌋
  let r := x - f
  if r < 1/2 then f
  else if 1/2 < r then f + 1
  else if f % 2 = 0 then f else f + 1

/-- Python `round(x, n)`: round to `n` decimal digits, ties to even. -/
def pyRound (x : ℚ) (n : ℕ) : ℚ :=
  (roundHalfEven (x * 10 ^ n) : ℚ) / 10 ^ n

/-- Python `min` of a nonempty list (0 for the empty list, which never occurs
at the call sites below). -/
def listMin : List ℚ → ℚ
  | [] => 0
  | h :: t => t.foldl min h

/-- Lowercasing of a string, modelling Python `str.lower()`. -/
def lowerStr (s : String) : String := ⟨s.data.map Char.toLower⟩

/-- Whether the second list occurs at the head of the first. -/
def headMatch : List Char → List Char → Bool
  | _, [] => true
  | [], _ :: _ => false
  | c :: cs, p :: ps => c == p && headMatch cs ps

/-- Whether `p` occurs as a contiguous sublist of the first list. -/
def hasSubL : List Char → List Char → Bool
  | [], p => p.isEmpty
  | c :: cs, p => headMatch (c :: cs) p || hasSubL cs p

/-- Python `pat in s` substring test on strings. -/
def strIn (pat s : String) : Bool := hasSubL s.data pat.data

/-- The configuration options (`app/config.py`, class `Settings`) read by the
embedded models, with their default values below.  Options not read by any
embedded function (API keys, URLs, intervals, CORS) are omitted. -/
structure Settings where
  wind_advisory_threshold : ℚ
  wind_warning_threshold : ℚ
  wind_extreme_threshold : ℚ
  ice_advisory_threshold : ℚ
  ice_warning_threshold : ℚ
  ice_extreme_threshold : ℚ
  coned_peak_capacity_mw : ℚ
  or_peak_capacity_mw : ℚ
  melt_risk_freezing_point_f : ℚ
  melt_risk_rapid_warming_rate_f_per_hr : ℚ
  snow_depth_override_in : ℚ

/-- The default `Settings()` values from `app/config.py`. -/
def defaultSettings : Settings :=
  { wind_advisory_threshold := 35
    wind_warning_threshold := 58
    wind_extreme_threshold := 74
    ice_advisory_threshold := 1/10
    ice_warning_threshold := 1/4
    ice_extreme_threshold := 1/2
    coned_peak_capacity_mw := 13400
    or_peak_capacity_mw := 1300
    melt_risk_freezing_point_f := 32
    melt_risk_rapid_warming_rate_f_per_hr := 3
    snow_depth_override_in := 0 }

/-- A timestamp, carrying the fields of a Python `datetime` that the embedded
code inspects: a linear time coordinate in hours (for subtraction), the
calendar month, and the hour of day. -/
structure Dt where
  hoursSinceEpoch : ℚ
  month : ℕ
  hour : ℕ
deriving DecidableEq, Repr

/-- Zone statics from `app/territory/definitions.py`.  Geographic fields
(latitude, NWS grid, county), read by no embedded function, are omitted. -/
structure ZoneDefinition where
  zone_id : String
  name : String
  territory : String
  peak_load_share : ℚ

/-- `CONED_ZONES ++ OR_ZONES` from `app/territory/definitions.py`. -/
def ALL_ZONES : List ZoneDefinition :=
  [ ⟨"CONED-MAN", "Manhattan", "CONED", 30/100⟩,
    ⟨"CONED-BRX", "Bronx", "CONED", 10/100⟩,
    ⟨"CONED-BKN", "Brooklyn", "CONED", 18/100⟩,
    ⟨"CONED-QNS", "Queens", "CONED", 16/100⟩,
    ⟨"CONED-SI", "Staten Island", "CONED", 4/100⟩,
    ⟨"CONED-WST", "Westchester", "CONED", 22/100⟩,
    ⟨"OR-ORA", "Orange County", "OR", 35/100⟩,
    ⟨"OR-ROC", "Rockland County", "OR", 30/100⟩,
    ⟨"OR-SUL", "Sullivan County", "OR", 10/100⟩,
    ⟨"OR-BER", "Northern Bergen/Passaic", "OR", 15/100⟩,
    ⟨"OR-SSX", "Sussex County", "OR", 10/100⟩ ]

/-- `WeatherConditions` (`app/schemas/weather.py`): the canonical observation
record.  Fields read by no embedded model (feels-like, humidity, wind
direction, visibility, cloud cover, pressure, source tag) are omitted. -/
structure WeatherConditions where
  zone_id : String
  observed_at : Option Dt := none
  temperature_f : Option ℚ := none
  wind_speed_mph : Option ℚ := none
  wind_gust_mph : Option ℚ := none
  precip_rate_in_hr : Option ℚ := none
  precip_probability_pct : Option ℚ := none
  snow_rate_in_hr : Option ℚ := none
  snow_depth_in : Option ℚ := none
  ice_accum_in : Option ℚ := none
  lightning_probability_pct : Option ℚ := none
  condition_text : Option String := none

/-- `ForecastPoint` (`app/schemas/weather.py`). -/
structure ForecastPoint where
  forecast_for : Dt
  temperature_f : Option ℚ := none
  feels_like_f : Option ℚ := none
  humidity_pct : Option ℚ := none
  wind_speed_mph : Option ℚ := none
  wind_gust_mph : Option ℚ := none
  precip_probability_pct : Option ℚ := none
  precip_amount_in : Option ℚ := none
  snow_amount_in : Option ℚ := none
  snow_depth_in : Option ℚ := none
  ice_accum_in : Option ℚ := none
  lightning_probability_pct : Option ℚ := none
  condition_text : Option String := none

/-- A stored `WeatherObservation` row (`app/models/weather.py`), restricted to
the columns the melt-risk model reads from the 48-hour history. -/
structure Obs where
  temperature_f : Option ℚ := none
  snow_rate_in_hr : Option ℚ := none
  snow_depth_in : Option ℚ := none

namespace snow_tracker

/-- The persisted snow state (`snow_state.json`): for each zone, `none` when
the zone is untracked, otherwise the stored `depth_in`.  The `set_at` and
`last_update` timestamps carried alongside the depth never influence any
computed value and are omitted. -/
def SnowSt := String → Option ℚ

/-- The `_MELT_THRESHOLDS` table of `snow_tracker.py` (default 32.0). -/
def MELT_THRESHOLDS (z : String) : ℚ :=
  if z = "CONED-MAN" then 25 else if z = "CONED-BKN" then 27
  else if z = "CONED-QNS" then 27 else if z = "CONED-BRX" then 27
  else if z = "CONED-SI" then 29 else if z = "CONED-WST" then 28
  else if z = "OR-ORA" then 31 else if z = "OR-ROC" then 30
  else if z = "OR-SUL" then 31 else if z = "OR-BER" then 30
  else if z = "OR-SSX" then 31 else 32

/-- The `_URBAN_MELT_MULT` table of `snow_tracker.py` (default 1.5). -/
def URBAN_MELT_MULT (z : String) : ℚ :=
  if z = "CONED-MAN" then 7/2 else if z = "CONED-BKN" then 3
  else if z = "CONED-QNS" then 3 else if z = "CONED-BRX" then 5/2
  else if z = "CONED-SI" then 2 else if z = "CONED-WST" then 2
  else if z = "OR-ORA" then 3/2 else if z = "OR-ROC" then 3/2
  else if z = "OR-SUL" then 6/5 else if z = "OR-BER" then 3/2
  else if z = "OR-SSX" then 6/5 else 3/2

/-- `get_snow_depth`: `None` if the zone is untracked, else the stored depth. -/
def get_snow_depth (st : SnowSt) (zone_id : String) : Option ℚ := st zone_id

/-- `set_snow_depth`: store `round(depth_in, 1)` for the zone. -/
def set_snow_depth (st : SnowSt) (zone_id : String) (depth_in : ℚ) : SnowSt :=
  fun z => if z = zone_id then some (pyRound depth_in 1) else st z

/-- `set_all_zones`: `set_snow_depth` for every zone of `ALL_ZONES`. -/
def set_all_zones (st : SnowSt) (depth_in : ℚ) : SnowSt :=
  ALL_ZONES.foldl (fun s zone => set_snow_depth s zone.zone_id depth_in) st

/-- `update_snow_depth`: temperature-based melt decay.  Returns the Python
function's return value paired with the new state.  An untracked zone, or a
zone at depth ≤ 0, returns 0.0 with the state unchanged; otherwise, when
`temp_f > threshold` and `hours_elapsed > 0`, the melt
`(temp_f - threshold) * 0.005 * urban_mult * hours_elapsed` is subtracted with
a floor of 0; the new depth is stored as `round(depth, 1)` and returned
unrounded. -/
def update_snow_depth (st : SnowSt) (zone_id : String) (temp_f : ℚ)
    (hours_elapsed : ℚ) : ℚ × SnowSt :=
  match st zone_id with
  | none => (0, st)
  | some depth =>
    if depth ≤ 0 then (0, st)
    else
      let threshold := MELT_THRESHOLDS zone_id
      let urban_mult := URBAN_MELT_MULT zone_id
      let depth' :=
        if temp_f > threshold ∧ hours_elapsed > 0 then
          max 0 (depth - (temp_f - threshold) * (5/1000) * urban_mult * hours_elapsed)
        else depth
      (depth', fun z => if z = zone_id then some (pyRound depth' 1) else st z)

/-- `add_snowfall`: add new snowfall to the tracked depth; an untracked zone
falls through to `set_snow_depth`. -/
def add_snowfall (st : SnowSt) (zone_id : String) (inches : ℚ) : SnowSt :=
  match st zone_id with
  | none => set_snow_depth st zone_id inches
  | some d => fun z => if z = zone_id then some (pyRound (d + inches) 1) else st z

/-- One call into the tracker's mutating API, for stating whole-history
invariants over arbitrary operation sequences. -/
inductive SnowOp where
  | setDepth (zone_id : String) (depth_in : ℚ)
  | setAllZones (depth_in : ℚ)
  | addSnowfall (zone_id : String) (inches : ℚ)
  | update (zone_id : String) (temp_f hours_elapsed : ℚ)

/-- Apply one tracker operation to the state (the return value of
`update_snow_depth` is dropped here). -/
def applyOp (st : SnowSt) : SnowOp → SnowSt
  | .setDepth z d => set_snow_depth st z d
  | .setAllZones d => set_all_zones st d
  | .addSnowfall z d => add_snowfall st z d
  | .update z t h => (update_snow_depth st z t h).2

/-- Apply a sequence of tracker operations from left to right. -/
def runOps (st : SnowSt) (ops : List SnowOp) : SnowSt :=
  ops.foldl applyOp st

/-- The depth arguments an operation writes from: nonnegative for the three
snowfall-setting operations, vacuous for the decay update. -/
def nonnegArgs : SnowOp → Prop
  | .setDepth _ d => 0 ≤ d
  | .setAllZones d => 0 ≤ d
  | .addSnowfall _ d => 0 ≤ d
  | .update _ _ _ => True

/-- All tracked depths of a state are nonnegative. -/
def nonnegSt (st : SnowSt) : Prop :=
  ∀ z d, st z = some d → 0 ≤ d

end snow_tracker

namespace outage_risk

/-- A contributing-factor tag of the outage-risk scorer.  The source emits
human-readable strings; each constructor stands for one of them, carrying the
number interpolated into the text.  The only downstream inspection of these
strings (`job_forecast._uncertainty_band`) tests for the substrings "Wind",
"Ice", "Snow", "synergy" and "melt", which distinguish exactly these
constructors, so the tagged form is inspection-equivalent to the strings. -/
inductive OFactor where
  | wind (mph : ℚ)
  | ice (inches : ℚ)
  | snow (in_hr : ℚ)
  | lightningRisk
  | heavyPrecipitation
  | windIceSynergy
  | windSnowSynergy
  | undergroundMeltRisk
  | elevatedActiveOutages
deriving DecidableEq, Repr

/-- `OutageRisk` (`app/schemas/impact.py`). -/
structure OutageRisk where
  zone_id : String
  score : ℚ
  level : String
  estimated_outages : ℤ
  contributing_factors : List OFactor
  actual_outages : Option ℤ
  outage_trend : String
deriving Repr

/-- `BASELINE_OUTAGES.get(zone_id or "", 5)` from `outage_risk.py`. -/
def BASELINE_OUTAGES (z : String) : ℤ :=
  if z = "CONED-MAN" then 60 else if z = "CONED-BKN" then 35
  else if z = "CONED-QNS" then 30 else if z = "CONED-BRX" then 20
  else if z = "CONED-SI" then 8 else if z = "CONED-WST" then 40
  else if z = "OR-ORA" then 5 else if z = "OR-ROC" then 3
  else if z = "OR-SUL" then 2 else if z = "OR-BER" then 3
  else if z = "OR-SSX" then 2 else 5

/-- `_wind_score`: piecewise-linear ramp over the configured advisory, warning
and extreme wind thresholds, on `max(speed or 0, (gust or 0) * 0.8)`. -/
def wind_score (st : Settings) (speed gust : Option ℚ) : ℚ :=
  let effective := max (pyOr speed 0) (pyOr gust 0 * (8/10))
  if effective < 15 then 0
  else if effective < st.wind_advisory_threshold then
    ((effective - 15) / (st.wind_advisory_threshold - 15)) * 30
  else if effective < st.wind_warning_threshold then
    30 + ((effective - st.wind_advisory_threshold) /
      (st.wind_warning_threshold - st.wind_advisory_threshold)) * 40
  else if effective < st.wind_extreme_threshold then
    70 + ((effective - st.wind_warning_threshold) /
      (st.wind_extreme_threshold - st.wind_warning_threshold)) * 20
  else 100

/-- `_ice_score`: the same ramp shape over the ice thresholds. -/
def ice_score (st : Settings) (ice_in : Option ℚ) : ℚ :=
  if !truthy ice_in || ice_in.getD 0 ≤ 0 then 0
  else
    let v := ice_in.getD 0
    if v < st.ice_advisory_threshold then (v / st.ice_advisory_threshold) * 30
    else if v < st.ice_warning_threshold then
      30 + ((v - st.ice_advisory_threshold) /
        (st.ice_warning_threshold - st.ice_advisory_threshold)) * 40
    else if v < st.ice_extreme_threshold then
      70 + ((v - st.ice_warning_threshold) /
        (st.ice_extreme_threshold - st.ice_warning_threshold)) * 20
    else 100

/-- `_snow_score`: ramps at 2, 4 and 6 in/hr of snowfall. -/
def snow_score (snow_rate : Option ℚ) : ℚ :=
  if !truthy snow_rate || snow_rate.getD 0 < 2 then 0
  else
    let v := snow_rate.getD 0
    if v < 4 then ((v - 2) / 2) * 40
    else if v < 6 then 40 + ((v - 4) / 2) * 30
    else min 100 (70 + ((v - 6) / 2) * 30)

/-- `_lightning_score`. -/
def lightning_score (prob : Option ℚ) : ℚ :=
  if !truthy prob || prob.getD 0 ≤ 0 then 0
  else min 100 (prob.getD 0 * (12/10))

/-- `_precip_score`. -/
def precip_score (rate snow prob : Option ℚ) : ℚ :=
  let rate_factor := if truthy rate then min 100 (pyOr rate 0 * 50) else 0
  let snow_factor := if truthy snow then min 100 (pyOr snow 0 * 30) else 0
  let prob_factor := pyOr prob 0 * (3/10)
  min 100 (max rate_factor snow_factor + prob_factor)

/-- `_score_to_level`: the shared 25/50/75 four-level banding. -/
def score_to_level (score : ℚ) : String :=
  if score < 25 then "Low"
  else if score < 50 then "Moderate"
  else if score < 75 then "High"
  else "Extreme"

/-- The latest calibration correction ratios visible to the scorer, per zone:
`none` models "no calibration record yet".  This stands for the
`outage_weather_correlations` read (through `_calibration_cache`) in
`_get_calibration_correction`. -/
def CalState := String → Option ℚ

/-- `_get_calibration_correction`: the stored ratio for the zone, defaulting
to the neutral 1.0 for a falsy zone id or when no record exists (the
try/except around the database read also lands on 1.0). -/
def get_calibration_correction (cal : CalState) (zone_id : String) : ℚ :=
  if zone_id = "" then 1
  else match cal zone_id with
    | some ratio => ratio
    | none => 1

/-- `_estimate_outages`: per-zone baseline floor plus a piecewise
weather-driven term scaled by the calibration correction. -/
def estimate_outages (cal : CalState) (score : ℚ) (zone_id : String) : ℤ :=
  let baseline := BASELINE_OUTAGES zone_id
  let weather_outages : ℤ :=
    if score < 3 then 0
    else if score < 25 then pyInt ((score - 3) * (18/10))
    else if score < 50 then pyInt (score * 10)
    else if score < 75 then pyInt (score * 40)
    else pyInt (score * 100)
  let correction := get_calibration_correction cal zone_id
  baseline + pyInt ((weather_outages : ℚ) * correction)

/-- The weather-driven term of `_estimate_outages` before the `int()`
truncations, as a function of the score: the quantity the spec asserts is a
smooth function with no jump at any threshold boundary. -/
def weather_outages_fn (score : ℚ) : ℚ :=
  if score < 3 then 0
  else if score < 25 then (score - 3) * (18/10)
  else if score < 50 then score * 10
  else if score < 75 then score * 40
  else score * 100

/-- `outage_risk.compute`: the full outage-risk scorer. -/
def compute (st : Settings) (cal : CalState) (weather : WeatherConditions)
    (current_outages : Option ℤ := none) (melt_risk_score : ℚ := 0) :
    OutageRisk :=
  let windS := wind_score st weather.wind_speed_mph weather.wind_gust_mph
  let iceS := ice_score st weather.ice_accum_in
  let snowS := snow_score weather.snow_rate_in_hr
  let lightningS := lightning_score weather.lightning_probability_pct
  let precipS := precip_score weather.precip_rate_in_hr weather.snow_rate_in_hr
    weather.precip_probability_pct
  let base_score :=
    if melt_risk_score > 5 then
      windS * (30/100) + iceS * (22/100) + snowS * (10/100)
        + lightningS * (10/100) + precipS * (12/100) + melt_risk_score * (16/100)
    else
      windS * (35/100) + iceS * (25/100) + snowS * (13/100)
        + lightningS * (12/100) + precipS * (15/100)
  let synergy := if windS > 30 ∧ iceS > 30 then min windS iceS * (25/100) else 0
  let snow_wind_synergy :=
    if snowS > 20 ∧ windS > 20 then min snowS windS * (20/100) else 0
  let score₀ := min 100 (base_score + synergy + snow_wind_synergy)
  let momentum :=
    match current_outages with
    | some n => if n > 5 then min 25 ((n : ℚ) * (2/10)) else 0
    | none => 0
  let score := if momentum > 0 then min 100 (score₀ + momentum) else score₀
  let factors : List OFactor :=
    (if windS > 20 then [.wind (pyOr weather.wind_speed_mph 0)] else [])
    ++ (if iceS > 20 then [.ice (pyOr weather.ice_accum_in 0)] else [])
    ++ (if snowS > 20 then [.snow (pyOr weather.snow_rate_in_hr 0)] else [])
    ++ (if lightningS > 20 then [.lightningRisk] else [])
    ++ (if precipS > 20 then [.heavyPrecipitation] else [])
    ++ (if synergy > 0 then [.windIceSynergy] else [])
    ++ (if snow_wind_synergy > 0 then [.windSnowSynergy] else [])
    ++ (if melt_risk_score > 5 then [.undergroundMeltRisk] else [])
    ++ (if momentum > 0 then [.elevatedActiveOutages] else [])
  let outage_trend :=
    match current_outages with
    | some n => if n > 10 then "rising" else "stable"
    | none => "stable"
  { zone_id := weather.zone_id
    score := pyRound score 1
    level := score_to_level score
    estimated_outages := estimate_outages cal score weather.zone_id
    contributing_factors := factors
    actual_outages := current_outages
    outage_trend := outage_trend }

end outage_risk

namespace melt_risk

/-- A contributing-factor tag of the melt-risk scorer, one constructor per
emitted string (no downstream code inspects these strings). -/
inductive MFactor where
  | snowCoverMelt (depth temp : ℚ)
  | saltMeltBrine (snow above : ℚ)
  | activeSnowmelt (depth : ℚ)
  | rainOnSnow
  | warmingFromBelowFreezing (rate : ℚ)
  | freezeThawCycles (n : ℕ)
  | rapidWarmingPremium (bonus : ℚ)
  | veryHighVulnerability
  | highDensity
deriving DecidableEq, Repr

/-- `MeltRisk` as constructed by `melt_risk.compute`.  The pydantic schema in
`app/schemas/outage.py` silently drops the `salt_melt_risk` and
`snow_depth_in` keyword arguments the scorer passes (they are absent from the
class although the repository's tests read them); they are kept here as
computed, which is harmless to every claim. -/
structure MeltRisk where
  zone_id : String
  score : ℚ := 0
  level : String := "Low"
  temperature_trend_f_per_hr : ℚ := 0
  melt_potential : ℚ := 0
  rain_on_snow_risk : ℚ := 0
  salt_melt_risk : ℚ := 0
  snow_depth_in : ℚ := 0
  freeze_thaw_cycles_48h : ℕ := 0
  contributing_factors : List MFactor := []
deriving Repr

/-- The `UNDERGROUND_DENSITY` table (default 0.0 via `.get(zone_id, 0.0)`). -/
def UNDERGROUND_DENSITY (z : String) : ℚ :=
  if z = "CONED-BKN" then 1 else if z = "CONED-QNS" then 95/100
  else if z = "CONED-BRX" then 85/100 else if z = "CONED-MAN" then 70/100
  else if z = "CONED-WST" then 30/100 else if z = "CONED-SI" then 15/100
  else if z = "OR-ORA" then 5/100 else if z = "OR-ROC" then 4/100
  else if z = "OR-SUL" then 2/100 else if z = "OR-BER" then 5/100
  else if z = "OR-SSX" then 2/100 else 0

/-- The `EFFECTIVE_MELT_THRESHOLD` table, looked up with default
`settings.melt_risk_freezing_point_f`.  (Note this table gives `OR-ORA` 30.0
while the snow tracker's private copy gives it 31.0.) -/
def EFFECTIVE_MELT_THRESHOLD (st : Settings) (z : String) : ℚ :=
  if z = "CONED-MAN" then 25 else if z = "CONED-BKN" then 27
  else if z = "CONED-BRX" then 27 else if z = "CONED-QNS" then 27
  else if z = "CONED-SI" then 29 else if z = "CONED-WST" then 28
  else if z = "OR-ORA" then 30 else if z = "OR-ROC" then 30
  else if z = "OR-SUL" then 31 else if z = "OR-BER" then 30
  else if z = "OR-SSX" then 31 else st.melt_risk_freezing_point_f

/-- `_seasonal_factor`: peak 1.0 in Feb–Mar, 0.0 Jun–Sep, ramp in between.
The `now_month` argument stands for `datetime.now(timezone.utc).month`, used
when the observation carries no timestamp. -/
def seasonal_factor (dt : Option Dt) (now_month : ℕ) : ℚ :=
  let month := (dt.map (·.month)).getD now_month
  if month = 2 ∨ month = 3 then 1
  else if month = 1 ∨ month = 4 then 7/10
  else if month = 5 ∨ month = 11 ∨ month = 12 then 4/10
  else if month = 10 then 2/10
  else 0

/-- `_score_to_level` in `melt_risk.py` — textually identical to the outage
scorer's copy. -/
def score_to_level (score : ℚ) : String := outage_risk.score_to_level score

/-- The `_MELT_MULT` table local to `_estimate_snow_on_ground`
(default 1.5). -/
def MELT_MULT (z : String) : ℚ :=
  if z = "CONED-MAN" then 7/2 else if z = "CONED-BKN" then 3
  else if z = "CONED-QNS" then 3 else if z = "CONED-BRX" then 5/2
  else if z = "CONED-SI" then 2 else if z = "CONED-WST" then 2
  else if z = "OR-ORA" then 3/2 else if z = "OR-ROC" then 3/2
  else if z = "OR-SUL" then 6/5 else if z = "OR-BER" then 3/2
  else if z = "OR-SSX" then 6/5 else 3/2

/-- `_estimate_snow_on_ground`: running accumulation of snowfall minus
degree-day melt over the observation history, floored at 0 after each melt
step. -/
def estimate_snow_on_ground (observations : List Obs) (freezing : ℚ)
    (zone_id : String) : ℚ :=
  if observations.isEmpty then 0
  else
    let mult := MELT_MULT zone_id
    observations.foldl (fun acc obs =>
      let acc :=
        match obs.snow_rate_in_hr with
        | some r => if r > 0 then acc + r * (1/4) else acc
        | none => acc
      match obs.temperature_f with
      | some t =>
        if t > freezing then
          max 0 (acc - (t - freezing) * (5/1000) * mult * (1/4))
        else acc
      | none => acc) 0

/-- `melt_risk.compute`: the underground melt-risk scorer.  `now_month`
stands for the current UTC month, consulted only when the observation has no
timestamp. -/
def compute (st : Settings) (now_month : ℕ) (zone_id : String)
    (weather : WeatherConditions) (observations : List Obs := []) : MeltRisk :=
  let density := UNDERGROUND_DENSITY zone_id
  let season := seasonal_factor weather.observed_at now_month
  if density < 1/100 ∨ season < 1/100 then { zone_id := zone_id }
  else
    let freezing := EFFECTIVE_MELT_THRESHOLD st zone_id
    let warm_thresh := freezing + 8
    let rapid_rate := st.melt_risk_rapid_warming_rate_f_per_hr
    let current_temp := pyOr weather.temperature_f 50
    let snow_rate := pyOr weather.snow_rate_in_hr 0
    let snow_depth := pyOr weather.snow_depth_in 0
    let precip_rate := pyOr weather.precip_rate_in_hr 0
    let ice_accum := pyOr weather.ice_accum_in 0
    let temps := observations.filterMap (·.temperature_f) ++ [current_temp]
    let total_snow := observations.foldl (fun a o =>
      match o.snow_rate_in_hr with
      | some r => a + r * (1/4)
      | none => a) 0
    let max_obs_snow_depth := observations.foldl (fun a o =>
      match o.snow_depth_in with
      | some d => max a d
      | none => a) 0
    let estimated_ground_snow := estimate_snow_on_ground observations freezing zone_id
    let ct := lowerStr (weather.condition_text.getD "")
    let condition_snow_estimate : ℚ :=
      if strIn "snow" ct || strIn "blizzard" ct || strIn "flurries" ct
          || strIn "wintry" ct then
        if strIn "blizzard" ct || strIn "heavy snow" ct then 6
        else if strIn "snow" ct && !strIn "light" ct then 3
        else if strIn "light snow" ct then 3/2
        else if strIn "flurries" ct || strIn "wintry" ct then 1/2
        else 0
      else 0
    let measured_depth := max snow_depth (max max_obs_snow_depth estimated_ground_snow)
    let effective_snow_depth :=
      if measured_depth > 1/10 then max measured_depth total_snow
      else max total_snow condition_snow_estimate
    let snow_present : Prop :=
      effective_snow_depth > 1/10 ∨ snow_rate > 0 ∨ ice_accum > 0
    let snow_cover_melt :=
      if current_temp > freezing ∧ snow_present then
        let depth_factor :=
          if effective_snow_depth > 0 then min 1 (effective_snow_depth / 6)
          else 1/10
        let temp_factor := min 1 ((current_temp - freezing) / 6)
        depth_factor * temp_factor * 100
      else 0
    let effective_snow_for_salt := max effective_snow_depth (total_snow + snow_rate)
    let salt_melt :=
      if current_temp ≥ freezing ∧ effective_snow_for_salt > 1/2 then
        let snow_factor := min 1 (effective_snow_for_salt / 6)
        let melt_intensity := min 1 ((current_temp - freezing) / 8)
        snow_factor * melt_intensity * 100
      else 0
    let melt_potential :=
      if current_temp > freezing ∧ snow_present then
        let temp_factor := min 1 ((current_temp - freezing) / 10)
        let snow_factor := min 1 ((effective_snow_depth + ice_accum) / 4)
        (temp_factor * (1/2) + snow_factor * (1/2)) * 100
      else 0
    let rain_on_snow :=
      if precip_rate > 0 ∧ snow_present ∧ current_temp > freezing then
        let precip_factor := min 1 (precip_rate / (1/2))
        let depth_factor :=
          if effective_snow_depth > 0 then min 1 (effective_snow_depth / 6)
          else 3/10
        precip_factor * (1/2 + 1/2 * depth_factor) * 100
      else 0
    let half := temps.length / 2
    let first_half_min :=
      if half > 0 then listMin (temps.take half) else temps.headD 0
    let temp_trend_f_per_hr :=
      if temps.length ≥ 2 then
        (current_temp - first_half_min) / max 1 ((temps.length : ℚ) * (1/4))
      else 0
    let temp_trend_score :=
      if temps.length ≥ 2 then
        if first_half_min < freezing ∧ current_temp > freezing then
          let rate_factor := min 1 (temp_trend_f_per_hr / rapid_rate)
          let temp_above := min 1 ((current_temp - freezing) / (warm_thresh - freezing))
          (rate_factor * (6/10) + temp_above * (4/10)) * 100
        else if current_temp > freezing ∧ temp_trend_f_per_hr > 1/2 then
          min 50 (temp_trend_f_per_hr / rapid_rate * 50)
        else 0
      else 0
    let freeze_thaw_cycles : ℕ :=
      if temps.length ≥ 4 then
        (match temps with
          | [] => 0
          | t₀ :: rest =>
            (rest.foldl (fun (p : Bool × ℕ) t =>
              let now_above := decide (t > freezing)
              if now_above ≠ p.1 then (now_above, p.2 + 1) else p)
              (decide (t₀ > freezing), 0)).2) / 2
      else 0
    let ftc_score := min 100 ((freeze_thaw_cycles : ℚ) * 25)
    let rapid_warming_bonus :=
      if temp_trend_f_per_hr > 3/2 ∧ current_temp > freezing ∧ snow_present then
        min 25 ((temp_trend_f_per_hr - 1) * (25/2))
      else 0
    let factors : List MFactor :=
      (if current_temp > freezing ∧ snow_present then
        (if snow_cover_melt > 10 then
          [.snowCoverMelt effective_snow_depth current_temp] else [])
       else [])
      ++ (if (current_temp ≥ freezing ∧ effective_snow_for_salt > 1/2)
            ∧ salt_melt > 15 then
          [.saltMeltBrine effective_snow_for_salt (current_temp - freezing)] else [])
      ++ (if current_temp > freezing ∧ snow_present then
          [.activeSnowmelt effective_snow_depth] else [])
      ++ (if precip_rate > 0 ∧ snow_present ∧ current_temp > freezing then
          [.rainOnSnow] else [])
      ++ (if temps.length ≥ 2 ∧ (first_half_min < freezing ∧ current_temp > freezing)
          then [.warmingFromBelowFreezing temp_trend_f_per_hr] else [])
      ++ (if freeze_thaw_cycles ≥ 2 then [.freezeThawCycles freeze_thaw_cycles] else [])
      ++ (if (temp_trend_f_per_hr > 3/2 ∧ current_temp > freezing ∧ snow_present)
            ∧ rapid_warming_bonus > 5 then
          [.rapidWarmingPremium rapid_warming_bonus] else [])
      ++ (if density ≥ 8/10 then [.veryHighVulnerability]
          else if density ≥ 1/2 then [.highDensity] else [])
    let raw_score :=
      snow_cover_melt * (35/100) + salt_melt * (25/100)
        + melt_potential * (15/100) + rain_on_snow * (10/100)
        + temp_trend_score * (10/100) + ftc_score * (5/100)
        + rapid_warming_bonus
    let final_score := max 0 (min 100 (raw_score * density * season))
    { zone_id := zone_id
      score := pyRound final_score 1
      level := score_to_level final_score
      temperature_trend_f_per_hr := pyRound temp_trend_f_per_hr 2
      melt_potential := pyRound melt_potential 1
      rain_on_snow_risk := pyRound rain_on_snow 1
      salt_melt_risk := pyRound salt_melt 1
      snow_depth_in := pyRound effective_snow_depth 1
      freeze_thaw_cycles_48h := freeze_thaw_cycles
      contributing_factors := factors }

end melt_risk

namespace vegetation_risk

/-- `VegetationRisk` (`app/schemas/impact.py`). -/
structure VegetationRisk where
  zone_id : String
  score : ℚ
  level : String
  foliage_factor : ℚ
  soil_saturation : String
deriving Repr

/-- The `OVERHEAD_EXPOSURE` table (default 0.5). -/
def OVERHEAD_EXPOSURE (z : String) : ℚ :=
  if z = "CONED-MAN" then 2/100 else if z = "CONED-BKN" then 25/100
  else if z = "CONED-QNS" then 45/100 else if z = "CONED-BRX" then 35/100
  else if z = "CONED-SI" then 70/100 else if z = "CONED-WST" then 85/100
  else if z = "OR-ORA" then 90/100 else if z = "OR-ROC" then 90/100
  else if z = "OR-SUL" then 95/100 else if z = "OR-BER" then 85/100
  else if z = "OR-SSX" then 95/100 else 50/100

/-- The `TREE_CANOPY_DENSITY` table (default 0.5). -/
def TREE_CANOPY_DENSITY (z : String) : ℚ :=
  if z = "CONED-MAN" then 10/100 else if z = "CONED-BKN" then 30/100
  else if z = "CONED-QNS" then 45/100 else if z = "CONED-BRX" then 40/100
  else if z = "CONED-SI" then 55/100 else if z = "CONED-WST" then 80/100
  else if z = "OR-ORA" then 75/100 else if z = "OR-ROC" then 70/100
  else if z = "OR-SUL" then 85/100 else if z = "OR-BER" then 65/100
  else if z = "OR-SSX" then 85/100 else 50/100

/-- `_foliage_factor`: full leaf Jun–Sep, partial Apr–May and Oct, bare
Nov–Mar. -/
def foliage_factor (month : ℕ) : ℚ :=
  if month = 6 ∨ month = 7 ∨ month = 8 ∨ month = 9 then 1
  else if month = 4 ∨ month = 5 ∨ month = 10 then 7/10
  else 3/10

/-- `_wind_vegetation_score`. -/
def wind_vegetation_score (speed gust : Option ℚ) (foliage : ℚ) : ℚ :=
  let effective := max (pyOr speed 0) (pyOr gust 0 * (8/10))
  let base :=
    if effective < 20 then 0
    else if effective < 40 then ((effective - 20) / 20) * 50
    else if effective < 60 then 50 + ((effective - 40) / 20) * 30
    else min 100 (80 + (effective - 60) * (3/2))
  base * foliage

/-- `_snow_loading_score`. -/
def snow_loading_score (snow_rate snow_depth temp_f : Option ℚ)
    (condition_text : Option String) : ℚ :=
  let temp := pyOr temp_f 32
  let rate := pyOr snow_rate 0
  let depth := pyOr snow_depth 0
  let cond := lowerStr (condition_text.getD "")
  let score : ℚ := 0
  let score :=
    if rate > 0 then
      let wet_factor : ℚ :=
        if 28 ≤ temp ∧ temp ≤ 34 then 3
        else if (25 ≤ temp ∧ temp < 28) ∨ (34 < temp ∧ temp ≤ 37) then 2
        else 1
      max score (min 100 (rate * 40 * wet_factor))
    else score
  let score :=
    if strIn "heavy snow" cond || strIn "blizzard" cond then
      max score (70 * (if 28 ≤ temp ∧ temp ≤ 34 then (3:ℚ) else 3/2) / 3)
    else if strIn "snow" cond && !strIn "light" cond then
      max score (50 * (if 28 ≤ temp ∧ temp ≤ 34 then (5/2:ℚ) else 6/5) / (5/2))
    else if strIn "light snow" cond then
      max score (30 * (if 28 ≤ temp ∧ temp ≤ 34 then (2:ℚ) else 1) / 2)
    else score
  let score :=
    if depth > 2 then
      let depth_factor := min 1 (depth / 12)
      let temp_factor : ℚ := if 28 ≤ temp ∧ temp ≤ 37 then 3/2 else 8/10
      max score (depth_factor * temp_factor * 60)
    else score
  min 100 score

/-- `_soil_saturation_score`. -/
def soil_saturation_score (precip_rate precip_prob : Option ℚ) : ℚ :=
  let rate_score := min 100 (pyOr precip_rate 0 * 40)
  let prob_score := pyOr precip_prob 0 * (1/2)
  min 100 (rate_score + prob_score)

/-- `_ice_loading_score`. -/
def ice_loading_score (ice_in : Option ℚ) : ℚ :=
  if !truthy ice_in || ice_in.getD 0 ≤ 0 then 0
  else
    let v := ice_in.getD 0
    if v < 1/10 then v / (1/10) * 30
    else if v < 1/4 then 30 + ((v - 1/10) / (15/100)) * 40
    else min 100 (70 + (v - 1/4) * 120)

/-- `vegetation_risk.compute`.  `now_month` stands for
`datetime.now(timezone.utc).month`. -/
def compute (now_month : ℕ) (weather : WeatherConditions) : VegetationRisk :=
  let zone_id := weather.zone_id
  let foliage := foliage_factor now_month
  let overhead := OVERHEAD_EXPOSURE zone_id
  let canopy := TREE_CANOPY_DENSITY zone_id
  let wind_veg := wind_vegetation_score weather.wind_speed_mph weather.wind_gust_mph foliage
  let soil := soil_saturation_score weather.precip_rate_in_hr weather.precip_probability_pct
  let ice_load := ice_loading_score weather.ice_accum_in
  let snow_load := snow_loading_score weather.snow_rate_in_hr weather.snow_depth_in
    weather.temperature_f weather.condition_text
  let raw_score := wind_veg * (35/100) + snow_load * (25/100)
    + ice_load * (25/100) + soil * (15/100)
  let exposure_factor := overhead * (4/10 + 6/10 * canopy)
  let score := min 100 (raw_score * max (5/100) exposure_factor)
  let soil_label := if soil > 60 then "saturated" else if soil > 30 then "moist" else "normal"
  { zone_id := zone_id
    score := pyRound score 1
    level := outage_risk.score_to_level score
    foliage_factor := foliage
    soil_saturation := soil_label }

end vegetation_risk

namespace load_forecast

/-- `LoadForecast` (`app/schemas/impact.py`). -/
structure LoadForecast where
  zone_id : String
  territory : String
  load_mw : ℚ
  capacity_mw : ℚ
  pct_capacity : ℚ
  risk_level : String
  peak_hour : ℕ
deriving Repr

/-- `_temperature_demand_factor`: U-curve with minimum demand near 65 °F. -/
def temperature_demand_factor (temp_f : ℚ) : ℚ :=
  let deviation := |temp_f - 65|
  if deviation < 5 then 0
  else if deviation < 15 then (deviation - 5) / 10 * (3/10)
  else if deviation < 30 then 3/10 + ((deviation - 15) / 15) * (4/10)
  else min 1 (7/10 + (deviation - 30) / 20 * (3/10))

/-- `_time_of_day_factor` (hour in UTC, shape in EST = UTC−5). -/
def time_of_day_factor (hour_utc : ℕ) : ℚ :=
  let hour_est := (hour_utc + 24 - 5) % 24
  if 14 ≤ hour_est ∧ hour_est ≤ 18 then 1
  else if 7 ≤ hour_est ∧ hour_est ≤ 13 then 7/10
  else if 19 ≤ hour_est ∧ hour_est ≤ 22 then 6/10
  else 3/10

/-- `_estimate_peak_hour`. -/
def estimate_peak_hour (temp_f : ℚ) : ℕ :=
  if temp_f > 80 then 16 else if temp_f < 30 then 8 else 12

/-- `_load_risk_level`: 70/85/95 % of capacity breakpoints. -/
def load_risk_level (pct : ℚ) : String :=
  if pct < 7/10 then "Low"
  else if pct < 85/100 then "Moderate"
  else if pct < 95/100 then "High"
  else "Extreme"

/-- `load_forecast.compute`.  `now_hour` stands for the current UTC hour,
consulted only when the observation has no timestamp. -/
def compute (st : Settings) (weather : WeatherConditions) (zone : ZoneDefinition)
    (now_hour : ℕ) : LoadForecast :=
  let capacity := if zone.territory = "CONED" then st.coned_peak_capacity_mw
    else st.or_peak_capacity_mw
  let zone_capacity := capacity * zone.peak_load_share
  let temp := pyOr weather.temperature_f 65
  let hour := ((weather.observed_at.map (·.hour)).getD now_hour)
  let temp_factor := temperature_demand_factor temp
  let tod_factor := time_of_day_factor hour
  let base_load_pct : ℚ := 4/10
  let weather_load_pct := temp_factor * (55/100)
  let tod_adj := tod_factor * (5/100)
  let total_pct := min (11/10) (base_load_pct + weather_load_pct + tod_adj)
  { zone_id := weather.zone_id
    territory := zone.territory
    load_mw := pyRound (zone_capacity * total_pct) 1
    capacity_mw := pyRound zone_capacity 1
    pct_capacity := pyRound (total_pct * 100) 1
    risk_level := load_risk_level total_pct
    peak_hour := estimate_peak_hour temp }

end load_forecast

namespace equipment_stress

/-- `EquipmentStress` (`app/schemas/impact.py`). -/
structure EquipmentStress where
  zone_id : String
  score : ℚ
  level : String
  transformer_risk : ℚ
  line_sag_risk : ℚ
deriving Repr

/-- `_transformer_stress`: ambient heat + quadratic load heating − wind
cooling, clamped to [0, 100]. -/
def transformer_stress (ambient_f load_pct wind_mph : ℚ) : ℚ :=
  let temp_stress := max 0 ((ambient_f - 85) / 30) * 40
  let load_stress := load_pct ^ 2 * 60
  let wind_cooling := min 20 (wind_mph * (1/2))
  min 100 (max 0 (temp_stress + load_stress - wind_cooling))

/-- `_line_sag_risk`.  The Python term `load_pct ** 1.5` is a real-valued
power with no rational counterpart; the embedding abstracts it as the
function argument `pow15` (every theorem below holds for an arbitrary
`pow15`). -/
def line_sag_risk (pow15 : ℚ → ℚ) (temp_f load_pct wind_mph ice_in : ℚ) : ℚ :=
  let thermal := max 0 ((temp_f - 90) / 25) * 30
  let load_heat := pow15 load_pct * 25
  let ice_weight := if ice_in ≠ 0 then min 40 (ice_in * 160) else 0
  let galloping :=
    if ice_in ≠ 0 ∧ ice_in > 5/100 ∧ wind_mph > 15 then
      min 30 (wind_mph * (1/2) * ice_in * 20)
    else 0
  min 100 (thermal + load_heat + ice_weight + galloping)

/-- `equipment_stress.compute`: transformer and line-sag risks blended
55/45. -/
def compute (pow15 : ℚ → ℚ) (weather : WeatherConditions)
    (_zone : ZoneDefinition) (load_pct : ℚ) : EquipmentStress :=
  let transformer := transformer_stress (pyOr weather.temperature_f 70) load_pct
    (pyOr weather.wind_speed_mph 0)
  let line_sag := line_sag_risk pow15 (pyOr weather.temperature_f 70) load_pct
    (pyOr weather.wind_speed_mph 0) (pyOr weather.ice_accum_in 0)
  let score := transformer * (55/100) + line_sag * (45/100)
  { zone_id := weather.zone_id
    score := pyRound score 1
    level := outage_risk.score_to_level score
    transformer_risk := pyRound transformer 1
    line_sag_risk := pyRound line_sag 1 }

end equipment_stress

namespace job_forecast

/-- `JobCountEstimate`.  Modelled from the spec: the class is imported by
`job_forecast.py` from `app/schemas/impact.py` but its declaration is absent
from the source snapshot; the fields are those the constructor call in
`job_forecast.compute` passes (§4.5 of the spec: low/mid/high workforce-job
estimate). -/
structure JobCountEstimate where
  zone_id : String
  territory : String
  outage_risk_score : ℚ
  estimated_jobs_low : ℤ
  estimated_jobs_mid : ℤ
  estimated_jobs_high : ℤ
  risk_level : String
  contributing_factors : List outage_risk.OFactor
deriving Repr

/-- The `NETWORK_REDUNDANCY_DISCOUNT` table (default 0.5). -/
def NETWORK_REDUNDANCY_DISCOUNT (z : String) : ℚ :=
  if z = "CONED-MAN" then 1/2 else if z = "CONED-BKN" then 1
  else if z = "CONED-QNS" then 1 else if z = "CONED-BRX" then 9/10
  else if z = "CONED-SI" then 8/10 else if z = "CONED-WST" then 7/10
  else if z = "OR-ORA" then 4/10 else if z = "OR-ROC" then 3/10
  else if z = "OR-SUL" then 2/10 else if z = "OR-BER" then 3/10
  else if z = "OR-SSX" then 2/10 else 1/2

/-- `_estimate_jobs`: smooth quadratic `0.15 * score² * redundancy`. -/
def estimate_jobs (score : ℚ) (redundancy : ℚ) : ℤ :=
  if score < 3 then 0
  else max 0 (pyInt ((15/100) * score * score * redundancy))

/-- The factor-tag predicates of `_uncertainty_band`: the Python code tests
the factor strings for the substrings "Wind"/"Ice"/"Snow" (excluding
"synergy"), "synergy" and "melt" (lowercased); on the emitted strings these
tests hold exactly for the corresponding constructors. -/
def has_ice (fs : List outage_risk.OFactor) : Bool :=
  fs.any fun f => match f with | .ice _ => true | _ => false

/-- Substring test "Wind" ∧ not "synergy" over the emitted factor strings. -/
def has_wind (fs : List outage_risk.OFactor) : Bool :=
  fs.any fun f => match f with | .wind _ => true | _ => false

/-- Substring test "Snow" ∧ not "synergy" over the emitted factor strings. -/
def has_snow (fs : List outage_risk.OFactor) : Bool :=
  fs.any fun f => match f with | .snow _ => true | _ => false

/-- Substring test "synergy" over the emitted factor strings. -/
def has_synergy (fs : List outage_risk.OFactor) : Bool :=
  fs.any fun f =>
    match f with
    | .windIceSynergy => true
    | .windSnowSynergy => true
    | _ => false

/-- Substring test "melt" (lowercased) over the emitted factor strings. -/
def has_melt (fs : List outage_risk.OFactor) : Bool :=
  fs.any fun f => match f with | .undergroundMeltRisk => true | _ => false

/-- `_uncertainty_band`: (low, high) multipliers by dominating driver. -/
def uncertainty_band (o : outage_risk.OutageRisk) : ℚ × ℚ :=
  let fs := o.contributing_factors
  if has_synergy fs then (3/10, 3)
  else if has_ice fs then (3/10, 5/2)
  else if has_melt fs then (3/10, 5/2)
  else if has_snow fs then (4/10, 2)
  else if has_wind fs then (1/2, 9/5)
  else (1/2, 3/2)

/-- `_determine_factors`. -/
def determine_factors (o : outage_risk.OutageRisk) (melt_risk_score : ℚ) :
    List outage_risk.OFactor :=
  if melt_risk_score > 20 ∧ ¬ has_melt o.contributing_factors then
    o.contributing_factors ++ [.undergroundMeltRisk]
  else o.contributing_factors

/-- `job_forecast.compute`. -/
def compute (o : outage_risk.OutageRisk) (zone : ZoneDefinition)
    (melt_risk_score : ℚ := 0) : JobCountEstimate :=
  let combined_score := max o.score (melt_risk_score * (4/10) + o.score * (6/10))
  let redundancy := NETWORK_REDUNDANCY_DISCOUNT zone.zone_id
  let weather_mid := estimate_jobs combined_score redundancy
  let baseline_jobs := pyInt ((outage_risk.BASELINE_OUTAGES zone.zone_id : ℚ) * (3/10))
  let mid := max weather_mid baseline_jobs
  let band := uncertainty_band o
  let low_mult := if melt_risk_score > 30 then min band.1 (4/10) else band.1
  let high_mult := if melt_risk_score > 30 then max band.2 2 else band.2
  { zone_id := zone.zone_id
    territory := zone.territory
    outage_risk_score := pyRound combined_score 1
    estimated_jobs_low := max 0 (pyInt ((mid : ℚ) * low_mult))
    estimated_jobs_mid := mid
    estimated_jobs_high := pyInt ((mid : ℚ) * high_mult)
    risk_level := o.level
    contributing_factors := determine_factors o melt_risk_score }

end job_forecast

namespace impact_engine

/-- `ForecastImpactPoint` (`app/schemas/impact.py`). -/
structure ForecastImpactPoint where
  forecast_for : Dt
  forecast_hour : ℤ
  overall_risk_score : ℚ
  overall_risk_level : String
  outage_risk_score : ℚ
  estimated_outages : ℤ
  estimated_outages_low : ℤ
  estimated_outages_high : ℤ
  estimated_jobs_low : ℤ
  estimated_jobs_mid : ℤ
  estimated_jobs_high : ℤ
  vegetation_risk_score : ℚ
  load_pct_capacity : ℚ
  equipment_stress_score : ℚ
  melt_risk_score : ℚ
deriving Repr

/-- Python `max` of a nonempty list (0 for the empty list, never hit below). -/
def listMax : List ℚ → ℚ
  | [] => 0
  | h :: t => t.foldl max h

/-- The `_URBAN_MELT_MULTIPLIER` table local to
`compute_zone_forecast_impacts` — entry-for-entry identical to the snow
tracker's `_URBAN_MELT_MULT` copy. -/
def URBAN_MELT_MULTIPLIER (z : String) : ℚ := snow_tracker.URBAN_MELT_MULT z

/-- The external state and real-valued primitives `compute_zone_forecast_impacts`
consumes, gathered as one record so the simulation is a pure function of it:
the configuration, the calibration table, the 48 h observation history, the
cached alert/tracker/outage reads, the current clock fields, and the two
real-power operations (`** 1.5`, `0.5 ** ·`) that have no rational
counterpart and are abstracted as function arguments. -/
structure ForecastEnv where
  st : Settings
  cal : outage_risk.CalState
  pow15 : ℚ → ℚ
  halfPow : ℚ → ℚ
  now_month : ℕ
  now_hour : ℕ
  observations : List Obs
  alertSnow : ℚ
  trackerDepths : List ℚ
  currentOutages : ℤ

/-- `_forecast_point_to_weather`: adapt a forecast point to
`WeatherConditions`. -/
def forecast_point_to_weather (fp : ForecastPoint) (zone_id : String) :
    WeatherConditions :=
  { zone_id := zone_id
    observed_at := some fp.forecast_for
    temperature_f := fp.temperature_f
    wind_speed_mph := fp.wind_speed_mph
    wind_gust_mph := fp.wind_gust_mph
    precip_probability_pct := fp.precip_probability_pct
    precip_rate_in_hr := fp.precip_amount_in
    snow_rate_in_hr := fp.snow_amount_in
    snow_depth_in := fp.snow_depth_in
    ice_accum_in := fp.ice_accum_in
    lightning_probability_pct := fp.lightning_probability_pct
    condition_text := fp.condition_text }

/-- `_estimate_initial_snow_depth`: tracker depths, config override, explicit
forecast depths, alert text (abstracted as `env.alertSnow`), condition-text
inference and forecast snowfall, in this priority order. -/
def estimate_initial_snow_depth (env : ForecastEnv) (points : List ForecastPoint) : ℚ :=
  if env.trackerDepths ≠ [] ∧ listMax env.trackerDepths > 1/10 then
    listMax env.trackerDepths
  else if env.st.snow_depth_override_in > 0 then env.st.snow_depth_override_in
  else
    let scan := points.take 24
    let best_depth := scan.foldl (fun b fp =>
      match fp.snow_depth_in with
      | some d => if d > b then d else b
      | none => b) 0
    let total_snow_amount := scan.foldl (fun s fp =>
      match fp.snow_amount_in with
      | some a => if a > 0 then s + a else s
      | none => s) 0
    let sev : ℕ := scan.foldl (fun sv fp =>
      let cond := lowerStr (fp.condition_text.getD "")
      if strIn "blizzard" cond || strIn "heavy snow" cond then max sv 4
      else if strIn "snow" cond && !strIn "light" cond then max sv 3
      else if strIn "light snow" cond then max sv 2
      else if strIn "flurries" cond || strIn "wintry" cond then max sv 1
      else sv) 0
    let best_depth := max best_depth env.alertSnow
    let best_depth :=
      if best_depth < 1/10 then
        max best_depth
          (if sev = 1 then 1/2 else if sev = 2 then 3/2
           else if sev = 3 then 3 else if sev = 4 then 6 else 0)
      else best_depth
    best_depth + total_snow_amount

/-- The body of the sampled (`i % 3 == 0`) branch of the forecast loop: runs
every scorer on the forecast point (with the running snow depth applied) and
assembles the emitted `ForecastImpactPoint`. -/
def samplePoint (env : ForecastEnv) (zone : ZoneDefinition) (base_time : Dt)
    (fp : ForecastPoint) (running_snow_depth : ℚ) : ForecastImpactPoint :=
  let weather :=
    { forecast_point_to_weather fp zone.zone_id with
        snow_depth_in := some running_snow_depth }
  let hours_ahead := fp.forecast_for.hoursSinceEpoch - base_time.hoursSinceEpoch
  let decay_factor := env.halfPow (hours_ahead / 24)
  let projected_outages : Option ℤ :=
    if env.currentOutages ≠ 0 then
      some (pyInt ((env.currentOutages : ℚ) * decay_factor))
    else none
  let m_risk := melt_risk.compute env.st env.now_month zone.zone_id weather
    env.observations
  let o_risk := outage_risk.compute env.st env.cal weather projected_outages
    m_risk.score
  let v_risk := vegetation_risk.compute env.now_month weather
  let l_forecast := load_forecast.compute env.st weather zone env.now_hour
  let e_stress := equipment_stress.compute env.pow15 weather zone
    (l_forecast.pct_capacity / 100)
  let overall_score :=
    if m_risk.score > 5 then
      o_risk.score * (25/100) + m_risk.score * (25/100)
        + (l_forecast.pct_capacity - 40) * (6/10) * (15/100)
        + v_risk.score * (15/100) + e_stress.score * (20/100)
    else
      o_risk.score * (40/100) + v_risk.score * (17/100)
        + (l_forecast.pct_capacity - 40) * (6/10) * (23/100)
        + e_stress.score * (20/100)
  let overall_score := max 0 (min 100 overall_score)
  let combined_score := max o_risk.score
    (m_risk.score * (4/10) + o_risk.score * (6/10))
  let redundancy := job_forecast.NETWORK_REDUNDANCY_DISCOUNT zone.zone_id
  let weather_jobs := job_forecast.estimate_jobs combined_score redundancy
  let band := job_forecast.uncertainty_band o_risk
  let low_mult := if m_risk.score > 30 then min band.1 (4/10) else band.1
  let high_mult := if m_risk.score > 30 then max band.2 2 else band.2
  let baseline := outage_risk.BASELINE_OUTAGES zone.zone_id
  let hour_of_day := fp.forecast_for.hour
  let staffing : ℚ :=
    if 7 ≤ hour_of_day ∧ hour_of_day < 19 then 1
    else if 19 ≤ hour_of_day ∧ hour_of_day < 23 then 3/4
    else if 5 ≤ hour_of_day ∧ hour_of_day < 7 then 3/4
    else 1/2
  let baseline_jobs := pyInt ((baseline : ℚ) * (3/10) * staffing)
  let mid_jobs := max weather_jobs baseline_jobs
  let jobs_low := max 0 (pyInt ((mid_jobs : ℚ) * low_mult))
  let jobs_high := pyInt ((mid_jobs : ℚ) * high_mult)
  { forecast_for := fp.forecast_for
    forecast_hour := pyInt hours_ahead
    overall_risk_score := pyRound overall_score 1
    overall_risk_level := outage_risk.score_to_level overall_score
    outage_risk_score := pyRound o_risk.score 1
    estimated_outages := o_risk.estimated_outages
    estimated_outages_low := jobs_low
    estimated_outages_high := jobs_high
    estimated_jobs_low := jobs_low
    estimated_jobs_mid := mid_jobs
    estimated_jobs_high := jobs_high
    vegetation_risk_score := pyRound v_risk.score 1
    load_pct_capacity := pyRound l_forecast.pct_capacity 1
    equipment_stress_score := pyRound e_stress.score 1
    melt_risk_score := pyRound m_risk.score 1 }

/-- The `for i, fp in enumerate(points)` loop of
`compute_zone_forecast_impacts`: each iteration advances the running snow
depth (add forecast snowfall, subtract temperature melt) and emits a
`ForecastImpactPoint` exactly when `i % 3 == 0`.  `prev_time` is the time
coordinate of the previous point. -/
def forecastLoop (env : ForecastEnv) (zone : ZoneDefinition) (base_time : Dt)
    (effective_freezing urban_mult : ℚ) :
    ℕ → List ForecastPoint → ℚ → ℚ → List ForecastImpactPoint
  | _, [], _, _ => []
  | i, fp :: rest, running_snow_depth, prev_time =>
    let hours_elapsed := max 0 (fp.forecast_for.hoursSinceEpoch - prev_time)
    let temp := pyOr fp.temperature_f 32
    let running_snow_depth :=
      if hours_elapsed > 0 then
        let d := if truthy fp.snow_amount_in ∧ fp.snow_amount_in.getD 0 > 0 then
          running_snow_depth + fp.snow_amount_in.getD 0 else running_snow_depth
        if temp > effective_freezing then
          max 0 (d - (temp - effective_freezing) * (5/1000) * urban_mult * hours_elapsed)
        else d
      else running_snow_depth
    let tail := forecastLoop env zone base_time effective_freezing urban_mult
      (i + 1) rest running_snow_depth fp.forecast_for.hoursSinceEpoch
    if i % 3 ≠ 0 then tail
    else samplePoint env zone base_time fp running_snow_depth :: tail

/-- `compute_zone_forecast_impacts`: the forecast-timeline simulation.  Note
the per-zone effective freezing here defaults to 32.0 (not the configured
freezing point). -/
def compute_zone_forecast_impacts (env : ForecastEnv) (zone : ZoneDefinition)
    (points : List ForecastPoint) : List ForecastImpactPoint :=
  match points with
  | [] => []
  | p0 :: _ =>
    let running := estimate_initial_snow_depth env points
    let effective_freezing := melt_risk.EFFECTIVE_MELT_THRESHOLD
      { env.st with melt_risk_freezing_point_f := 32 } zone.zone_id
    let urban_mult := URBAN_MELT_MULTIPLIER zone.zone_id
    forecastLoop env zone p0.forecast_for effective_freezing urban_mult
      0 points running p0.forecast_for.hoursSinceEpoch

end impact_engine

namespace calibration

/-- An `OutageSnapshot` row (`app/models/outage.py`), restricted to the
columns the calibration batch reads.  Timestamps are time coordinates in
hours, matching `Dt.hoursSinceEpoch`. -/
structure OutageSnapshot where
  zone_id : String
  snapshot_at : ℚ
  outage_count : ℤ
deriving Repr

/-- An `ImpactAssessment` row, restricted to the columns the calibration
batch reads.  `job_count_estimate` stands for the stored JSON's
`estimated_jobs_mid` entry when the assessment carries a job estimate. -/
structure ImpactAssessment where
  zone_id : String
  assessed_at : ℚ
  forecast_hour : ℤ
  estimated_outages : Option ℤ
  outage_risk_score : Option ℚ
  job_count_estimate : Option ℚ
deriving Repr

/-- A stored `WeatherObservation` row as the calibration batch reads it. -/
structure CalObs where
  zone_id : String
  observed_at : Option ℚ
  wind_speed_mph : Option ℚ := none
  temperature_f : Option ℚ := none
  precip_rate_in_hr : Option ℚ := none
  snow_rate_in_hr : Option ℚ := none
  ice_accum_in : Option ℚ := none
deriving Repr

/-- The database contents visible to one calibration run. -/
structure Db where
  snapshots : List OutageSnapshot
  assessments : List ImpactAssessment
  observations : List CalObs

/-- `MIN_SNAPSHOTS`. -/
def MIN_SNAPSHOTS : ℕ := 5

/-- `MIN_ASSESSMENTS`. -/
def MIN_ASSESSMENTS : ℕ := 3

/-- `_safe_avg`. -/
def safe_avg (values : List ℚ) : Option ℚ :=
  if values.isEmpty then none else some (values.sum / values.length)

/-- The `calibrated_coefficients` JSON document stored by `_calibrate_zone`. -/
structure Calibrated where
  outage_correction_ratio : ℚ
  actual_outage_avg : ℚ
  actual_outage_max : ℤ
  actual_outage_min : ℤ
  predicted_outage_avg : ℚ
  predicted_score_avg : ℚ
  predicted_jobs_avg : ℚ
  observation_count : ℕ
  snapshot_count : ℕ
  assessment_count : ℕ
  wind_avg_mph : Option ℚ
  temp_avg_f : Option ℚ
  precip_avg_in_hr : Option ℚ
deriving Repr

/-- An `OutageWeatherCorrelation` row as written by `_calibrate_zone`.  The
two Pearson coefficients are produced by `_compute_correlation`, whose square
root has no rational counterpart; it is abstracted as the `corrFn` argument
below (it influences no control flow). -/
structure OutageWeatherCorrelation where
  zone_id : String
  computed_at : ℚ
  wind_correlation : Option ℚ
  temp_correlation : Option ℚ
  calibrated_coefficients : Calibrated
deriving Repr

/-- Python truthiness filter `[x for x in l if x]` over optional floats. -/
def truthyVals (l : List (Option ℚ)) : List ℚ :=
  l.filterMap fun x => match x with
    | some v => if v ≠ 0 then some v else none
    | none => none

/-- `round(x, d) if x else None` on an optional average. -/
def roundIfTruthy (x : Option ℚ) (d : ℕ) : Option ℚ :=
  match x with
  | some v => if v ≠ 0 then some (pyRound v d) else none
  | none => none

/-- `_calibrate_zone`: gather the zone's recent positive-count snapshots and
current-hour assessments, compute the clamped correction ratio and averages,
and return the record to store — or `none` for a skipped zone. -/
def calibrate_zone
    (corrFn : List CalObs → List OutageSnapshot → String → Option ℚ)
    (db : Db) (zone_id : String) (since now : ℚ) :
    Option OutageWeatherCorrelation :=
  let snapshots := db.snapshots.filter fun s =>
    s.zone_id = zone_id ∧ s.snapshot_at ≥ since ∧ s.outage_count > 0
  if snapshots.length < MIN_SNAPSHOTS then none
  else
    let counts := snapshots.map (·.outage_count)
    let actual_avg : ℚ := ((counts.sum : ℤ) : ℚ) / snapshots.length
    let actual_max := counts.foldl max (counts.headD 0)
    let actual_min := counts.foldl min (counts.headD 0)
    let assessments := db.assessments.filter fun a =>
      a.zone_id = zone_id ∧ a.assessed_at ≥ since ∧ a.forecast_hour = 0
    if assessments.length < MIN_ASSESSMENTS then none
    else
      let predicted_outages := assessments.filterMap (·.estimated_outages)
      let predicted_scores := assessments.filterMap (·.outage_risk_score)
      if predicted_outages.isEmpty ∨ predicted_scores.isEmpty then none
      else
        let predicted_avg : ℚ :=
          ((predicted_outages.sum : ℤ) : ℚ) / predicted_outages.length
        let score_avg := predicted_scores.sum / predicted_scores.length
        let obs := db.observations.filter fun o =>
          o.zone_id = zone_id ∧ o.observed_at.any (· ≥ since)
        let wind_avg := safe_avg (truthyVals (obs.map (·.wind_speed_mph)))
        let temp_avg := safe_avg (truthyVals (obs.map (·.temperature_f)))
        let precip_avg := safe_avg (truthyVals (obs.map (·.precip_rate_in_hr)))
        let correction_ratio :=
          if predicted_avg > 0 then actual_avg / predicted_avg else 1
        let correction_ratio := max (3/10) (min 3 correction_ratio)
        let job_predictions := assessments.filterMap (·.job_count_estimate)
        let job_avg : ℚ :=
          if job_predictions.isEmpty then 0
          else job_predictions.sum / job_predictions.length
        some
          { zone_id := zone_id
            computed_at := now
            wind_correlation := corrFn obs snapshots "wind_speed_mph"
            temp_correlation := corrFn obs snapshots "temperature_f"
            calibrated_coefficients :=
              { outage_correction_ratio := pyRound correction_ratio 3
                actual_outage_avg := pyRound actual_avg 1
                actual_outage_max := actual_max
                actual_outage_min := actual_min
                predicted_outage_avg := pyRound predicted_avg 1
                predicted_score_avg := pyRound score_avg 1
                predicted_jobs_avg := pyRound job_avg 1
                observation_count := obs.length
                snapshot_count := snapshots.length
                assessment_count := assessments.length
                wind_avg_mph := roundIfTruthy wind_avg 1
                temp_avg_f := roundIfTruthy temp_avg 1
                precip_avg_in_hr := roundIfTruthy precip_avg 3 } }

/-- `_get_active_zones`: distinct zone ids having at least `MIN_SNAPSHOTS`
recent snapshots (of any outage count — this outer gate does not apply the
`outage_count > 0` filter that `_calibrate_zone` applies). -/
def get_active_zones (db : Db) (since : ℚ) : List String :=
  ((db.snapshots.filter (·.snapshot_at ≥ since)).map (·.zone_id)).dedup.filter
    fun z =>
      MIN_SNAPSHOTS ≤ ((db.snapshots.filter fun s =>
        s.zone_id = z ∧ s.snapshot_at ≥ since).length)

/-- `run_calibration` restricted to its committed effect: the records written,
one per successfully calibrated active zone, in zone order. -/
def run_calibration
    (corrFn : List CalObs → List OutageSnapshot → String → Option ℚ)
    (db : Db) (since now : ℚ) : List OutageWeatherCorrelation :=
  (get_active_zones db since).filterMap fun z =>
    calibrate_zone corrFn db z since now

/-- The zone loop of `run_calibration` with the per-zone body abstracted as a
fallible function: the Python loop has no per-zone exception handler, so an
exception propagates and the zones after the failing one are never
processed.  Returns the records committed before the failure (each zone
commits its own record) paired with the error, if any. -/
def calibrationLoop {ε α : Type} (body : String → Except ε (Option α)) :
    List String → List α × Option ε
  | [] => ([], none)
  | z :: rest =>
    match body z with
    | .error e => ([], some e)
    | .ok r =>
      let (rs, err) := calibrationLoop body rest
      (r.toList ++ rs, err)

end calibration

/-! Named forms of the per-zone query results inside `_calibrate_zone`, for
stating what a written record contains. -/

/-- The zone's recent snapshots with positive outage count — the list
`_calibrate_zone` averages as the "actual" side. -/
def posSnapshots (db : calibration.Db) (zone : String) (since : ℚ) :
    List calibration.OutageSnapshot :=
  db.snapshots.filter fun s =>
    s.zone_id = zone ∧ s.snapshot_at ≥ since ∧ s.outage_count > 0

/-- The zone's recent current-hour (forecast_hour = 0) assessments — the
"predicted" side. -/
def currentAssessments (db : calibration.Db) (zone : String) (since : ℚ) :
    List calibration.ImpactAssessment :=
  db.assessments.filter fun a =>
    a.zone_id = zone ∧ a.assessed_at ≥ since ∧ a.forecast_hour = 0

/-- `actual_avg`: mean outage count over the positive-count snapshots. -/
def actualAvg (db : calibration.Db) (zone : String) (since : ℚ) : ℚ :=
  (((posSnapshots db zone since).map (·.outage_count)).sum : ℤ)
    / (posSnapshots db zone since).length

/-- `predicted_avg`: mean of the non-null estimated outage counts over the
current-hour assessments. -/
def predictedAvg (db : calibration.Db) (zone : String) (since : ℚ) : ℚ :=
  (((currentAssessments db zone since).filterMap (·.estimated_outages)).sum : ℤ)
    / ((currentAssessments db zone since).filterMap (·.estimated_outages)).length

/-! Concrete fixtures used by the counterexamples and witnesses below. -/

/-- A correlation function returning no coefficient (its value influences no
control flow of the calibration run). -/
def corrNone : List calibration.CalObs → List calibration.OutageSnapshot →
    String → Option ℚ :=
  fun _ _ _ => none

/-- Fixture: five positive-count snapshots and three complete assessments for
Brooklyn, so a calibration record is written; the averages are 1 and 3. -/
def dbWritten : calibration.Db :=
  { snapshots := List.replicate 5 ⟨"CONED-BKN", 1, 1⟩
    assessments := List.replicate 3 ⟨"CONED-BKN", 1, 0, some 3, some 50, none⟩
    observations := [] }

/-- Fixture: five recent snapshots all of outage count 0 and three complete
assessments for Manhattan. -/
def dbZeroCounts : calibration.Db :=
  { snapshots := List.replicate 5 ⟨"CONED-MAN", 1, 0⟩
    assessments := List.replicate 3 ⟨"CONED-MAN", 1, 0, some 3, some 50, none⟩
    observations := [] }

/-- The Manhattan zone record. -/
def zoneMan : ZoneDefinition := ⟨"CONED-MAN", "Manhattan", "CONED", 30/100⟩

/-- A forecast environment with empty caches, no calibration, no live
outages, and trivial real-power primitives. -/
def envTrivial : impact_engine.ForecastEnv :=
  { st := defaultSettings
    cal := fun _ => none
    pow15 := fun _ => 0
    halfPow := fun _ => 0
    now_month := 2
    now_hour := 12
    observations := []
    alertSnow := 0
    trackerDepths := []
    currentOutages := 0 }

/-- Twelve hourly forecast points starting at time coordinate 0. -/
def pts12 : List ForecastPoint :=
  [ { forecast_for := ⟨0, 2, 0⟩ }, { forecast_for := ⟨1, 2, 1⟩ },
    { forecast_for := ⟨2, 2, 2⟩ }, { forecast_for := ⟨3, 2, 3⟩ },
    { forecast_for := ⟨4, 2, 4⟩ }, { forecast_for := ⟨5, 2, 5⟩ },
    { forecast_for := ⟨6, 2, 6⟩ }, { forecast_for := ⟨7, 2, 7⟩ },
    { forecast_for := ⟨8, 2, 8⟩ }, { forecast_for := ⟨9, 2, 9⟩ },
    { forecast_for := ⟨10, 2, 10⟩ }, { forecast_for := ⟨11, 2, 11⟩ } ]

/-- A snow state tracking only Manhattan, at depth 2.0. -/
def stMan : snow_tracker.SnowSt :=
  fun z => if z = "CONED-MAN" then some 2 else none

/-! Arithmetic lemmas about the Python-semantics helpers. -/

theorem roundHalfEven_intCast (k : ℤ) : roundHalfEven (k : ℚ) = k := by
  simp [roundHalfEven]

theorem roundHalfEven_nonneg {x : ℚ} (hx : 0 ≤ x) : 0 ≤ roundHalfEven x := by
  have h0 : (0 : ℤ) ≤ ⌊x⌋ := Int.floor_nonneg.mpr hx
  simp only [roundHalfEven]
  split_ifs <;> omega

theorem pyRound_nonneg {x : ℚ} (n : ℕ) (hx : 0 ≤ x) : 0 ≤ pyRound x n := by
  unfold pyRound
  have h := roundHalfEven_nonneg (x := x * 10 ^ n) (mul_nonneg hx (by positivity))
  have h' : (0 : ℚ) ≤ (roundHalfEven (x * 10 ^ n) : ℚ) := by exact_mod_cast h
  exact div_nonneg h' (by positivity)

theorem pyRound_tenth (k : ℤ) : pyRound ((k : ℚ) / 10) 1 = (k : ℚ) / 10 := by
  unfold pyRound
  rw [show ((k : ℚ) / 10 * 10 ^ 1) = (k : ℚ) by ring_nf, roundHalfEven_intCast]
  norm_num

theorem pyInt_natCast (n : ℕ) : pyInt ((n : ℚ)) = n := by
  unfold pyInt
  rw [if_neg (not_lt.mpr (by positivity))]
  exact_mod_cast Int.floor_natCast n

/-! Claim C1. -/

/-- C1: the claim that every hazard score lies in [0,100] for every valid
input fails: on the (schema-valid) observation with precipitation rate
−1 in/hr and snow rate −1 in/hr, the outage-risk scorer returns the negative
score −4.5.  The scorer clamps its score from above (`min(100.0, …)`) but
never from below, although the spec (§3, §7, §8) and the schema's own
comment (`score: float  # 0-100`) require [0,100] even for malformed input —
the matching melt scorer does clamp both sides — so this is recorded as a
code bug. -/
theorem C1_outage_score_negative :
    (outage_risk.compute defaultSettings (fun _ => none)
        { zone_id := "CONED-MAN", precip_rate_in_hr := some (-1),
          snow_rate_in_hr := some (-1) }).score = -9/2
    ∧ ¬ (0 ≤ (-9/2 : ℚ)) := by
  constructor
  · simp only [outage_risk.compute, outage_risk.wind_score, outage_risk.ice_score,
      outage_risk.snow_score, outage_risk.lightning_score, outage_risk.precip_score,
      outage_risk.score_to_level, outage_risk.estimate_outages,
      outage_risk.get_calibration_correction, outage_risk.BASELINE_OUTAGES,
      defaultSettings, pyOr, truthy, pyRound, roundHalfEven, pyInt,
      String.reduceEq, reduceIte]
    norm_num [min_def, max_def, Int.fract]
  · norm_num

/-! Claim C9. -/

/-- C9: with the default thresholds, wind 40 mph + ice 0.5 in yields an
outage-risk score of exactly 48.2 — NOT strictly greater than 50 as the
claim states — although the wind+ice synergy tag IS among the contributing
factors.  The repository's own test `test_outage_risk_ice_storm` asserts
`result.score > 50` on this very input, so the code contradicts its own test
suite and the claim is recorded as a code bug. -/
theorem C9_wind40_ice05_score :
    (outage_risk.compute defaultSettings (fun _ => none)
        { zone_id := "CONED-MAN", wind_speed_mph := some 40,
          ice_accum_in := some (1/2) }).score = 241/5
    ∧ ¬ ((241/5 : ℚ) > 50)
    ∧ outage_risk.OFactor.windIceSynergy ∈
        (outage_risk.compute defaultSettings (fun _ => none)
          { zone_id := "CONED-MAN", wind_speed_mph := some 40,
            ice_accum_in := some (1/2) }).contributing_factors := by
  refine ⟨?_, by norm_num, ?_⟩ <;>
  · simp only [outage_risk.compute, outage_risk.wind_score, outage_risk.ice_score,
      outage_risk.snow_score, outage_risk.lightning_score, outage_risk.precip_score,
      outage_risk.score_to_level, outage_risk.estimate_outages,
      outage_risk.get_calibration_correction, outage_risk.BASELINE_OUTAGES,
      defaultSettings, pyOr, truthy, pyRound, roundHalfEven, pyInt,
      String.reduceEq, reduceIte]
    norm_num [min_def, max_def, Int.fract]

/-! Claim C2. -/

/-- C2 counterexample: the claim says the melt score is 0 whenever the
observation's month is OUTSIDE June–September; but for a February
observation (month 2, outside June–September) in Brooklyn at 35 °F over 6 in
of snow, the scorer returns 73.5 ≠ 0.  (The code's seasonal gate is the
reverse: the factor is 0 IN June–September and peaks in February/March.) -/
theorem C2_february_nonzero :
    (melt_risk.compute defaultSettings 2 "CONED-BKN"
        { zone_id := "CONED-BKN", observed_at := some ⟨0, 2, 12⟩,
          temperature_f := some 35, snow_depth_in := some 6 }).score = 147/2
    ∧ ((147/2 : ℚ) ≠ 0) := by
  constructor
  · simp only [melt_risk.compute, melt_risk.seasonal_factor,
      melt_risk.UNDERGROUND_DENSITY, melt_risk.EFFECTIVE_MELT_THRESHOLD,
      melt_risk.estimate_snow_on_ground, melt_risk.MELT_MULT,
      melt_risk.score_to_level, outage_risk.score_to_level,
      defaultSettings, pyOr, truthy, pyRound, roundHalfEven, pyInt, listMin,
      lowerStr, strIn, hasSubL, headMatch, String.reduceEq, reduceIte]
    norm_num [min_def, max_def, Int.fract]
  · norm_num

/-- C2 (amended): the seasonal gate runs the other way around: for every
zone, weather input and observation history whose observation month lies IN
June–September, `melt_risk.compute` returns score 0 regardless of all other
inputs (the seasonal factor is 0 in those months). -/
theorem C2_seasonal_gate (st : Settings) (now_month : ℕ) (zone : String)
    (weather : WeatherConditions) (observations : List Obs) (dt : Dt)
    (hobs : weather.observed_at = some dt)
    (hmonth : dt.month = 6 ∨ dt.month = 7 ∨ dt.month = 8 ∨ dt.month = 9) :
    (melt_risk.compute st now_month zone weather observations).score = 0 := by
  have hs : melt_risk.seasonal_factor weather.observed_at now_month = 0 := by
    rw [hobs]
    rcases hmonth with h | h | h | h <;> simp [melt_risk.seasonal_factor, h]
  have hcond : melt_risk.UNDERGROUND_DENSITY zone < 1/100
      ∨ melt_risk.seasonal_factor weather.observed_at now_month < 1/100 :=
    Or.inr (by rw [hs]; norm_num)
  unfold melt_risk.compute
  rw [if_pos hcond]

/-- Witness for C2 (amended): a July observation with otherwise-favourable
melt conditions in Brooklyn scores 0. -/
theorem C2_seasonal_gate_witness :
    (melt_risk.compute defaultSettings 7 "CONED-BKN"
        { zone_id := "CONED-BKN", observed_at := some ⟨0, 7, 12⟩,
          temperature_f := some 35, snow_depth_in := some 6 }).score = 0 :=
  C2_seasonal_gate defaultSettings 7 "CONED-BKN" _ [] ⟨0, 7, 12⟩ rfl
    (Or.inr (Or.inl rfl))

/-! Claim C10. -/

/-- C10 counterexample: the claim says a zone's snow state is created lazily
on the first `set` OR the first decay-update call; but the decay update on an
untracked zone (here Manhattan, empty state) returns 0.0 and creates NO
state record. -/
theorem C10_update_creates_nothing :
    (snow_tracker.update_snow_depth (fun _ => none) "CONED-MAN" 40 1).2 "CONED-MAN"
      = none
    ∧ (snow_tracker.update_snow_depth (fun _ => none) "CONED-MAN" 40 1).1 = 0 := by
  constructor <;> rfl

/-- C10 (amended): a zone's snow state is created lazily on the first `set`
(or first `add_snowfall`, which falls through to `set`): for every zone with
no existing state, `set` and `add_snowfall` leave a record behind; the
decay update on an untracked zone instead returns 0.0 and creates no
record. -/
theorem C10_lazy_creation (st : snow_tracker.SnowSt) (zone : String)
    (d t h : ℚ) (huntracked : st zone = none) :
    (snow_tracker.set_snow_depth st zone d) zone = some (pyRound d 1)
    ∧ (snow_tracker.add_snowfall st zone d) zone = some (pyRound d 1)
    ∧ (snow_tracker.update_snow_depth st zone t h).2 zone = none
    ∧ (snow_tracker.update_snow_depth st zone t h).1 = 0 := by
  refine ⟨by simp [snow_tracker.set_snow_depth], ?_, ?_, ?_⟩
  · unfold snow_tracker.add_snowfall
    rw [huntracked]
    simp [snow_tracker.set_snow_depth]
  · unfold snow_tracker.update_snow_depth
    rw [huntracked]
    exact huntracked
  · unfold snow_tracker.update_snow_depth
    rw [huntracked]

/-- Witness for C10 (amended): on the empty state, setting Manhattan to
1.5 in creates its record, while the decay update leaves it untracked. -/
theorem C10_lazy_creation_witness :
    (snow_tracker.set_snow_depth (fun _ => none) "CONED-MAN" (3/2)) "CONED-MAN"
      = some (pyRound (3/2) 1)
    ∧ (snow_tracker.add_snowfall (fun _ => none) "CONED-MAN" (3/2)) "CONED-MAN"
      = some (pyRound (3/2) 1)
    ∧ (snow_tracker.update_snow_depth (fun _ => none) "CONED-MAN" 40 (1/2)).2 "CONED-MAN"
      = none
    ∧ (snow_tracker.update_snow_depth (fun _ => none) "CONED-MAN" 40 (1/2)).1 = 0 :=
  C10_lazy_creation (fun _ => none) "CONED-MAN" (3/2) 40 (1/2) rfl

/-! Claim C4. -/

/-- C4 counterexample: the claim says the decay update SETS the depth to
`max(0, d − (t − threshold)·0.005·urbanMult·h)`; but for Staten Island
(threshold 29, multiplier 2.0) at depth 1.0, 46 °F, 1 h, that value is 0.83
while the stored depth afterwards is `round(0.83, 1) = 0.8` ≠ 0.83 (the
return value is the unrounded 0.83). -/
theorem C4_stored_depth_rounded :
    ((snow_tracker.update_snow_depth
        (fun z => if z = "CONED-SI" then some 1 else none) "CONED-SI" 46 1).2
      "CONED-SI" = some (8/10))
    ∧ ((snow_tracker.update_snow_depth
        (fun z => if z = "CONED-SI" then some 1 else none) "CONED-SI" 46 1).1
      = 83/100)
    ∧ ((8/10 : ℚ) ≠ max 0 (1 - (46 - 29) * (5/1000) * 2 * 1)) := by
  refine ⟨?_, ?_, by norm_num⟩ <;>
  · simp only [snow_tracker.update_snow_depth, snow_tracker.MELT_THRESHOLDS,
      snow_tracker.URBAN_MELT_MULT, pyRound, roundHalfEven, pyInt,
      String.reduceEq, reduceIte]
    norm_num [min_def, max_def, Int.fract]

/-- C4 (amended): for every tracked zone at depth d > 0, the decay update
RETURNS `max(0, d − (t − threshold)·0.005·urbanMult·h)` when t is above the
zone's threshold and h > 0, and d unchanged otherwise; the depth it STORES
is that value rounded to one decimal place.  In particular at-or-below the
threshold the stored depth is unchanged whenever it is already a one-decimal
value (as every depth stored through the tracker's API is). -/
theorem C4_decay_update (st : snow_tracker.SnowSt) (zone : String)
    (d t h : ℚ) (hd : st zone = some d) (hpos : 0 < d) :
    ((snow_tracker.update_snow_depth st zone t h).1 =
      if t > snow_tracker.MELT_THRESHOLDS zone ∧ h > 0 then
        max 0 (d - (t - snow_tracker.MELT_THRESHOLDS zone) * (5/1000)
          * snow_tracker.URBAN_MELT_MULT zone * h)
      else d)
    ∧ ((snow_tracker.update_snow_depth st zone t h).2 zone =
        some (pyRound ((snow_tracker.update_snow_depth st zone t h).1) 1))
    ∧ (∀ k : ℤ, d = (k : ℚ) / 10 → ¬ (t > snow_tracker.MELT_THRESHOLDS zone ∧ h > 0) →
        (snow_tracker.update_snow_depth st zone t h).2 zone = some d) := by
  have hle : ¬ d ≤ 0 := not_le.mpr hpos
  refine ⟨?_, ?_, ?_⟩
  · unfold snow_tracker.update_snow_depth
    rw [hd]
    simp [hle]
  · unfold snow_tracker.update_snow_depth
    rw [hd]
    simp [hle]
  · intro k hk hcond
    subst hk
    unfold snow_tracker.update_snow_depth
    rw [hd]
    simp [hle, hcond, pyRound_tenth]

/-- Witness for C4 (amended): Manhattan tracked at 2.0 in, 20 °F (below its
25 °F threshold), 1 h elapsed: the update returns 2.0 and stores 2.0
unchanged. -/
theorem C4_decay_update_witness :
    ((snow_tracker.update_snow_depth stMan "CONED-MAN" 20 1).1 =
      if (20 : ℚ) > snow_tracker.MELT_THRESHOLDS "CONED-MAN" ∧ (1 : ℚ) > 0 then
        max 0 (2 - (20 - snow_tracker.MELT_THRESHOLDS "CONED-MAN") * (5/1000)
          * snow_tracker.URBAN_MELT_MULT "CONED-MAN" * 1)
      else 2)
    ∧ ((snow_tracker.update_snow_depth stMan "CONED-MAN" 20 1).2 "CONED-MAN" =
        some (pyRound ((snow_tracker.update_snow_depth stMan "CONED-MAN" 20 1).1) 1))
    ∧ (∀ k : ℤ, (2 : ℚ) = (k : ℚ) / 10 →
        ¬ ((20 : ℚ) > snow_tracker.MELT_THRESHOLDS "CONED-MAN" ∧ (1 : ℚ) > 0) →
        (snow_tracker.update_snow_depth stMan "CONED-MAN" 20 1).2 "CONED-MAN" = some 2) :=
  C4_decay_update stMan "CONED-MAN" 2 20 1 rfl (by norm_num)

/-! Claim C3. -/

/-- C3 counterexample: the claim says the weather-driven term of the outage
estimate is a continuous function of the score with no jump at any threshold
boundary; but at the threshold 25 the term jumps from 39.42 (at score 24.9)
to 250 (at score 25) — over 200 outages across a 0.1-score gap — and the
estimate itself (zone OR-SSX, baseline 2, no calibration) jumps from 41 to
252. -/
theorem C3_jump_at_threshold :
    outage_risk.estimate_outages (fun _ => none) (249/10) "OR-SSX" = 41
    ∧ outage_risk.estimate_outages (fun _ => none) 25 "OR-SSX" = 252
    ∧ ¬ (∀ s₁ s₂ : ℚ, |s₁ - s₂| ≤ 1/10 →
          |outage_risk.weather_outages_fn s₁ - outage_risk.weather_outages_fn s₂|
            ≤ 100) := by
  refine ⟨?_, ?_, ?_⟩
  · simp only [outage_risk.estimate_outages, outage_risk.BASELINE_OUTAGES,
      outage_risk.get_calibration_correction, pyInt,
      String.reduceEq, reduceIte]
    norm_num
  · simp only [outage_risk.estimate_outages, outage_risk.BASELINE_OUTAGES,
      outage_risk.get_calibration_correction, pyInt,
      String.reduceEq, reduceIte]
    norm_num
  · intro hctr
    have h := hctr 25 (249/10) (by rw [abs_le]; constructor <;> norm_num)
    rw [show outage_risk.weather_outages_fn 25 = 250 by
        norm_num [outage_risk.weather_outages_fn],
      show outage_risk.weather_outages_fn (249/10) = 1971/50 by
        norm_num [outage_risk.weather_outages_fn],
      abs_le] at h
    norm_num at h

/-- C3 (amended): for every calibration state, score and zone, the estimated
outage count is `baseline(zone) + int(int(w(score)) · correction)` where the
correction ratio is the zone's stored one (1.0 when no record exists) and
`w` is the piecewise weather-driven map — 0 below 3, `(score−3)·1.8` on
[3,25), `10·score` on [25,50), `40·score` on [50,75), `100·score` from 75 —
which is smooth across the old threshold 10 but retains jump discontinuities
at the 25/50/75 threshold boundaries (at 25 it jumps by more than 200). -/
theorem C3_estimate_decomposition (cal : outage_risk.CalState) (score : ℚ)
    (zone : String) :
    (outage_risk.estimate_outages cal score zone
      = outage_risk.BASELINE_OUTAGES zone
        + pyInt ((pyInt (outage_risk.weather_outages_fn score) : ℚ)
            * outage_risk.get_calibration_correction cal zone))
    ∧ outage_risk.get_calibration_correction (fun _ => none) zone = 1
    ∧ outage_risk.weather_outages_fn 25 - outage_risk.weather_outages_fn (249/10)
        > 200 := by
  refine ⟨?_, ?_, by norm_num [outage_risk.weather_outages_fn]⟩
  · unfold outage_risk.estimate_outages outage_risk.weather_outages_fn
    split_ifs <;> norm_num [pyInt]
  · simp [outage_risk.get_calibration_correction]

/-! Claim C7. -/

/-- C7 counterexample: the claim quantifies over ALL real-number arguments;
but `set_snow_depth` performs no clamping, so the single-operation sequence
`set("CONED-MAN", −1.0)` leaves a stored depth of −1.0 < 0. -/
theorem C7_negative_set :
    (snow_tracker.runOps (fun _ => none)
        [.setDepth "CONED-MAN" (-1)]) "CONED-MAN" = some (-1)
    ∧ ¬ (0 ≤ (-1 : ℚ)) := by
  constructor
  · simp only [snow_tracker.runOps, List.foldl, snow_tracker.applyOp,
      snow_tracker.set_snow_depth, pyRound, roundHalfEven,
      String.reduceEq, reduceIte]
    norm_num [Int.fract]
  · norm_num

/-- The `set` operation preserves nonnegativity of all stored depths when the
depth written is nonnegative. -/
theorem set_snow_depth_nonneg (st : snow_tracker.SnowSt) (zone : String)
    {d : ℚ} (hst : snow_tracker.nonnegSt st) (hd : 0 ≤ d) :
    snow_tracker.nonnegSt (snow_tracker.set_snow_depth st zone d) := by
  intro z v hv
  unfold snow_tracker.set_snow_depth at hv
  by_cases hz : z = zone
  · rw [if_pos hz] at hv
    cases hv
    exact pyRound_nonneg 1 hd
  · rw [if_neg hz] at hv
    exact hst z v hv

/-- Folding `set` over any zone list preserves nonnegativity. -/
theorem foldl_set_nonneg (zs : List ZoneDefinition) (st : snow_tracker.SnowSt)
    {d : ℚ} (hst : snow_tracker.nonnegSt st) (hd : 0 ≤ d) :
    snow_tracker.nonnegSt
      (zs.foldl (fun s zone => snow_tracker.set_snow_depth s zone.zone_id d) st) := by
  induction zs generalizing st with
  | nil => exact hst
  | cons z rest ih =>
    exact ih _ (set_snow_depth_nonneg st z.zone_id hst hd)

/-- `add_snowfall` preserves nonnegativity when the added amount is
nonnegative. -/
theorem add_snowfall_nonneg (st : snow_tracker.SnowSt) (zone : String)
    {d : ℚ} (hst : snow_tracker.nonnegSt st) (hd : 0 ≤ d) :
    snow_tracker.nonnegSt (snow_tracker.add_snowfall st zone d) := by
  rcases hcur : st zone with _ | v
  · have := set_snow_depth_nonneg st zone hst hd
    intro z w hw
    simp only [snow_tracker.add_snowfall, hcur] at hw
    exact this z w hw
  · intro z w hw
    simp only [snow_tracker.add_snowfall, hcur] at hw
    by_cases hz : z = zone
    · rw [if_pos hz] at hw
      cases hw
      exact pyRound_nonneg 1 (add_nonneg (hst zone v hcur) hd)
    · rw [if_neg hz] at hw
      exact hst z w hw

/-- The decay update preserves nonnegativity unconditionally. -/
theorem update_snow_depth_nonneg (st : snow_tracker.SnowSt) (zone : String)
    (t h : ℚ) (hst : snow_tracker.nonnegSt st) :
    snow_tracker.nonnegSt (snow_tracker.update_snow_depth st zone t h).2 := by
  rcases hcur : st zone with _ | depth
  · intro z w hw
    simp only [snow_tracker.update_snow_depth, hcur] at hw
    exact hst z w hw
  · by_cases hle : depth ≤ 0
    · intro z w hw
      simp only [snow_tracker.update_snow_depth, hcur, if_pos hle] at hw
      exact hst z w hw
    · intro z w hw
      simp only [snow_tracker.update_snow_depth, hcur, if_neg hle] at hw
      by_cases hz : z = zone
      · rw [if_pos hz] at hw
        cases hw
        refine pyRound_nonneg 1 ?_
        split_ifs
        · exact le_max_left 0 _
        · exact hst zone depth hcur
      · rw [if_neg hz] at hw
        exact hst z w hw

/-- C7 (amended): starting from any state whose stored depths are all
nonnegative, every sequence of tracker operations whose `set`/`setAll`
depths and `addSnowfall` amounts are nonnegative (the decay update takes any
temperature and elapsed time) leaves every zone's stored depth ≥ 0.  The
unrestricted claim fails because `set` does not clamp negative inputs. -/
theorem C7_depth_invariant (st : snow_tracker.SnowSt)
    (hst : snow_tracker.nonnegSt st) (ops : List snow_tracker.SnowOp)
    (hops : ∀ op ∈ ops, snow_tracker.nonnegArgs op) :
    snow_tracker.nonnegSt (snow_tracker.runOps st ops) := by
  induction ops generalizing st with
  | nil => exact hst
  | cons op rest ih =>
    have hop := hops op (List.mem_cons_self op rest)
    have hrest : ∀ o ∈ rest, snow_tracker.nonnegArgs o :=
      fun o ho => hops o (List.mem_cons_of_mem op ho)
    have hstep : snow_tracker.nonnegSt (snow_tracker.applyOp st op) := by
      cases op with
      | setDepth z d => exact set_snow_depth_nonneg st z hst hop
      | setAllZones d => exact foldl_set_nonneg ALL_ZONES st hst hop
      | addSnowfall z d => exact add_snowfall_nonneg st z hst hop
      | update z t h => exact update_snow_depth_nonneg st z t h hst
    exact ih _ hstep hrest

/-- Witness for C7 (amended): a concrete four-operation history with
nonnegative arguments keeps every depth nonnegative. -/
theorem C7_depth_invariant_witness :
    snow_tracker.nonnegSt (snow_tracker.runOps (fun _ => none)
      [.setDepth "CONED-MAN" 2, .update "CONED-MAN" 40 1,
        .addSnowfall "CONED-BKN" (3/2), .setAllZones (1/2)]) := by
  refine C7_depth_invariant (fun _ => none) ?_ _ ?_
  · intro z d hd
    simp at hd
  · intro op hop
    fin_cases hop <;> norm_num [snow_tracker.nonnegArgs]

/-! Claims C5 and C6: supporting lemmas about the calibration run. -/

/-- A record produced by `_calibrate_zone` carries the zone it was computed
for. -/
theorem calibrate_zone_zone_id
    (corrFn : List calibration.CalObs → List calibration.OutageSnapshot → String → Option ℚ)
    (db : calibration.Db) (zone : String) (since now : ℚ)
    (r : calibration.OutageWeatherCorrelation)
    (h : calibration.calibrate_zone corrFn db zone since now = some r) :
    r.zone_id = zone := by
  simp only [calibration.calibrate_zone] at h
  split_ifs at h <;>
    first
      | exact Option.noConfusion h
      | (injection h with h2; subst h2; rfl)

/-- `_calibrate_zone` produces a record exactly when the zone clears all
three gates: ≥ 5 recent positive-count snapshots, ≥ 3 recent current-hour
assessments, and at least one non-null estimated outage count and one
non-null risk score among them. -/
theorem calibrate_zone_isSome_iff
    (corrFn : List calibration.CalObs → List calibration.OutageSnapshot → String → Option ℚ)
    (db : calibration.Db) (zone : String) (since now : ℚ) :
    (∃ r, calibration.calibrate_zone corrFn db zone since now = some r)
      ↔ (5 ≤ (posSnapshots db zone since).length
        ∧ 3 ≤ (currentAssessments db zone since).length
        ∧ (currentAssessments db zone since).filterMap (·.estimated_outages) ≠ []
        ∧ (currentAssessments db zone since).filterMap (·.outage_risk_score) ≠ []) := by
  simp only [posSnapshots, currentAssessments]
  constructor
  · rintro ⟨r, hr⟩
    simp only [calibration.calibrate_zone, calibration.MIN_SNAPSHOTS,
      calibration.MIN_ASSESSMENTS] at hr
    split_ifs at hr with h1 h2 h3 h4 h5 <;>
      first
        | exact Option.noConfusion hr
        | exact ⟨not_lt.mp h1, not_lt.mp h2,
            fun he => (not_or.mp h3).1 (List.isEmpty_iff.mpr he),
            fun he => (not_or.mp h3).2 (List.isEmpty_iff.mpr he)⟩
  · rintro ⟨hl1, hl2, hp1, hp2⟩
    rw [← Option.ne_none_iff_exists']
    simp only [calibration.calibrate_zone, calibration.MIN_SNAPSHOTS,
      calibration.MIN_ASSESSMENTS]
    rw [if_neg (not_lt.mpr hl1), if_neg (not_lt.mpr hl2),
      if_neg (not_or.mpr ⟨fun he => hp1 (List.isEmpty_iff.mp he),
        fun he => hp2 (List.isEmpty_iff.mp he)⟩)]
    simp

/-- A zone with ≥ 5 recent positive-count snapshots is among the active
zones of the run (whose gate counts recent snapshots of any outage
count). -/
theorem mem_active_zones (db : calibration.Db) (zone : String) (since : ℚ)
    (h : 5 ≤ (posSnapshots db zone since).length) :
    zone ∈ calibration.get_active_zones db since := by
  have himp : ∀ s : calibration.OutageSnapshot,
      (decide (s.zone_id = zone ∧ s.snapshot_at ≥ since ∧ s.outage_count > 0)) = true →
      (decide (s.zone_id = zone ∧ s.snapshot_at ≥ since)) = true := by
    intro s hs
    rw [decide_eq_true_eq] at hs ⊢
    exact ⟨hs.1, hs.2.1⟩
  have hlen : 5 ≤ (db.snapshots.filter fun s =>
      s.zone_id = zone ∧ s.snapshot_at ≥ since).length :=
    le_trans h (List.monotone_filter_right db.snapshots himp).length_le
  have hne : posSnapshots db zone since ≠ [] := by
    intro he
    rw [he] at h
    simp at h
  obtain ⟨s, hs⟩ := List.exists_mem_of_ne_nil _ hne
  have hsf := List.mem_filter.mp hs
  rw [decide_eq_true_eq] at hsf
  unfold calibration.get_active_zones
  rw [List.mem_filter]
  constructor
  · rw [List.mem_dedup, List.mem_map]
    refine ⟨s, ?_, hsf.2.1⟩
    rw [List.mem_filter, decide_eq_true_eq]
    exact ⟨hsf.1, hsf.2.2.1⟩
  · rw [decide_eq_true_eq]
    exact hlen

/-! Claim C5. -/

/-- C5 counterexample: the claim says the stored correction ratio EQUALS
actual_avg / predicted_avg clamped to [0.3, 3.0]; but with five snapshots of
count 1 and three assessments predicting 3 (actual_avg 1, predicted_avg 3),
the clamped ratio is 1/3 while the stored ratio is `round(1/3, 3)` =
0.333 ≠ 1/3. -/
theorem C5_stored_ratio_rounded :
    (calibration.calibrate_zone corrNone dbWritten "CONED-BKN" 0 10).map
        (fun r => r.calibrated_coefficients.outage_correction_ratio)
      = some (333/1000)
    ∧ actualAvg dbWritten "CONED-BKN" 0 = 1
    ∧ predictedAvg dbWritten "CONED-BKN" 0 = 3
    ∧ max (3/10) (min 3 (actualAvg dbWritten "CONED-BKN" 0
        / predictedAvg dbWritten "CONED-BKN" 0)) = 1/3
    ∧ (333/1000 : ℚ) ≠ 1/3 := by
  refine ⟨?_, ?_, ?_, ?_, by norm_num⟩ <;>
  · simp only [calibration.calibrate_zone, dbWritten, corrNone,
      calibration.MIN_SNAPSHOTS, calibration.MIN_ASSESSMENTS,
      calibration.safe_avg, calibration.truthyVals, calibration.roundIfTruthy,
      actualAvg, predictedAvg, posSnapshots, currentAssessments,
      pyRound, roundHalfEven, List.replicate, String.reduceEq, reduceIte]
    norm_num [List.filter, List.filterMap, min_def, max_def, Int.fract]

/-- C5 (amended): whenever a calibration run writes a record for a zone, the
stored outage correction ratio equals actual_avg / predicted_avg clamped to
[0.3, 3.0] AND THEN ROUNDED to three decimal places (the pre-clamp ratio is
1.0 when predicted_avg is not positive), and any zone with no record reads
the neutral correction ratio 1.0. -/
theorem C5_ratio_formula
    (corrFn : List calibration.CalObs → List calibration.OutageSnapshot → String → Option ℚ)
    (db : calibration.Db) (zone : String) (since now : ℚ)
    (r : calibration.OutageWeatherCorrelation)
    (h : calibration.calibrate_zone corrFn db zone since now = some r) :
    r.calibrated_coefficients.outage_correction_ratio
      = pyRound (max (3/10) (min 3
          (if predictedAvg db zone since > 0 then
            actualAvg db zone since / predictedAvg db zone since
          else 1))) 3
    ∧ outage_risk.get_calibration_correction (fun _ => none) zone = 1 := by
  refine ⟨?_, by simp [outage_risk.get_calibration_correction]⟩
  simp only [calibration.calibrate_zone] at h
  split_ifs at h with h1 h2 h3 h4 h5 <;>
    first
      | exact Option.noConfusion h
      | (injection h with hrec; subst hrec;
         simp only [actualAvg, predictedAvg, posSnapshots, currentAssessments];
         first
           | rw [if_pos h4]
           | rw [if_neg h4])

/-- Witness for C5 (amended): on the five-snapshot/three-assessment fixture,
the written record's ratio equals the clamped-and-rounded formula, and an
uncalibrated zone reads 1.0. -/
theorem C5_ratio_formula_witness :
    (calibration.calibrate_zone corrNone dbWritten "CONED-BKN" 0 10).map
        (fun r => r.calibrated_coefficients.outage_correction_ratio)
      = some (pyRound (max (3/10) (min 3
          (if predictedAvg dbWritten "CONED-BKN" 0 > 0 then
            actualAvg dbWritten "CONED-BKN" 0 / predictedAvg dbWritten "CONED-BKN" 0
          else 1))) 3)
    ∧ outage_risk.get_calibration_correction (fun _ => none) "CONED-BKN" = 1 := by
  rcases hr : calibration.calibrate_zone corrNone dbWritten "CONED-BKN" 0 10 with _ | r
  · exfalso
    revert hr
    simp only [calibration.calibrate_zone, dbWritten, corrNone,
      calibration.MIN_SNAPSHOTS, calibration.MIN_ASSESSMENTS,
      List.replicate, String.reduceEq, reduceIte]
    norm_num [List.filter, List.filterMap]
    exact fun hx => Option.noConfusion hx
  · have h := C5_ratio_formula corrNone dbWritten "CONED-BKN" 0 10 r hr
    rw [Option.map_some']
    exact ⟨congrArg some h.1, h.2⟩

/-! Claim C6. -/

/-- C6 counterexample: the claim says a record is written iff the zone has
≥ 5 recent snapshots and ≥ 3 recent current-hour assessments; but a zone
with exactly 5 recent snapshots — all of outage count 0 — and 3 complete
assessments gets NO record, because `_calibrate_zone` additionally filters
snapshots to `outage_count > 0`. -/
theorem C6_zero_count_skipped :
    ((dbZeroCounts.snapshots.filter fun s =>
        s.zone_id = "CONED-MAN" ∧ s.snapshot_at ≥ 0).length = 5)
    ∧ ((dbZeroCounts.assessments.filter fun a =>
        a.zone_id = "CONED-MAN" ∧ a.assessed_at ≥ 0 ∧ a.forecast_hour = 0).length = 3)
    ∧ calibration.run_calibration corrNone dbZeroCounts 0 10 = [] := by
  refine ⟨?_, ?_, ?_⟩ <;>
  · simp only [calibration.run_calibration, calibration.get_active_zones,
      calibration.calibrate_zone, dbZeroCounts, corrNone,
      calibration.MIN_SNAPSHOTS, calibration.MIN_ASSESSMENTS,
      List.replicate, String.reduceEq, reduceIte]
    norm_num [List.filter, List.filterMap, List.dedup, List.filterMap_nil]

/-- C6 (amended): a calibration run writes a record for a zone iff the zone
has ≥ 5 recent snapshots WITH POSITIVE OUTAGE COUNT, ≥ 3 recent current-hour
assessments, and among those assessments at least one non-null estimated
outage count and one non-null risk score; a zone failing these gates is
skipped without error.  But — contrary to the claim — a FAILING zone aborts
the whole run: the zone loop has no per-zone exception handler, so an error
in one zone prevents calibration of the zones after it. -/
theorem C6_record_iff
    (corrFn : List calibration.CalObs → List calibration.OutageSnapshot → String → Option ℚ)
    (db : calibration.Db) (zone : String) (since now : ℚ) :
    ((∃ r ∈ calibration.run_calibration corrFn db since now, r.zone_id = zone)
      ↔ (5 ≤ (posSnapshots db zone since).length
        ∧ 3 ≤ (currentAssessments db zone since).length
        ∧ (currentAssessments db zone since).filterMap (·.estimated_outages) ≠ []
        ∧ (currentAssessments db zone since).filterMap (·.outage_risk_score) ≠ []))
    ∧ (∀ (f : String → Except Unit (Option Unit)) (z₁ z₂ : String),
        f z₁ = Except.error () →
        calibration.calibrationLoop f [z₁, z₂] = ([], some ())) := by
  constructor
  · constructor
    · rintro ⟨r, hmem, hzone⟩
      unfold calibration.run_calibration at hmem
      rw [List.mem_filterMap] at hmem
      obtain ⟨z, _, hcal⟩ := hmem
      have hzid := calibrate_zone_zone_id corrFn db z since now r hcal
      rw [hzone] at hzid
      subst hzid
      exact (calibrate_zone_isSome_iff corrFn db zone since now).mp ⟨r, hcal⟩
    · intro hc
      obtain ⟨r, hr⟩ := (calibrate_zone_isSome_iff corrFn db zone since now).mpr hc
      refine ⟨r, ?_, calibrate_zone_zone_id corrFn db zone since now r hr⟩
      unfold calibration.run_calibration
      rw [List.mem_filterMap]
      exact ⟨zone, mem_active_zones db zone since hc.1, hr⟩
  · intro f z₁ z₂ hf
    simp [calibration.calibrationLoop, hf]

/-- Witness for C6 (amended): the five-positive-snapshot fixture produces a
Brooklyn record, and a loop whose first zone raises commits nothing and
reaches no later zone. -/
theorem C6_record_iff_witness :
    (∃ r ∈ calibration.run_calibration corrNone dbWritten 0 10,
      r.zone_id = "CONED-BKN")
    ∧ calibration.calibrationLoop
        (fun z => if z = "A" then Except.error () else Except.ok (some ()))
        ["A", "B"] = ([], some ()) := by
  constructor
  · refine ((C6_record_iff corrNone dbWritten "CONED-BKN" 0 10).1).mpr ⟨?_, ?_, ?_, ?_⟩ <;>
    · simp only [posSnapshots, currentAssessments, dbWritten, List.replicate,
        String.reduceEq, reduceIte]
      norm_num [List.filter, List.filterMap] <;> simp
  · exact (C6_record_iff corrNone dbWritten "CONED-BKN" 0 10).2 _ "A" "B" (by simp)

/-! Claim C8. -/

/-- The forecast hour emitted for a sampled point is the integer part of its
time offset from the start of the timeline. -/
theorem samplePoint_forecast_hour (env : impact_engine.ForecastEnv)
    (zone : ZoneDefinition) (bt : Dt) (fp : ForecastPoint) (run : ℚ) :
    (impact_engine.samplePoint env zone bt fp run).forecast_hour
      = pyInt (fp.forecast_for.hoursSinceEpoch - bt.hoursSinceEpoch) := rfl

/-- The forecast loop started at index `i` over points whose times are
`base + (i + j)` hours emits exactly the indices ≡ 0 (mod 3) as forecast
hours. -/
theorem forecastLoop_hours (env : impact_engine.ForecastEnv)
    (zone : ZoneDefinition) (bt : Dt) (ef um : ℚ) (ps : List ForecastPoint) :
    ∀ (i : ℕ) (run pt : ℚ),
      (∀ j (hj : j < ps.length),
        (ps.get ⟨j, hj⟩).forecast_for.hoursSinceEpoch
          = bt.hoursSinceEpoch + (i + j)) →
      (impact_engine.forecastLoop env zone bt ef um i ps run pt).map
          (·.forecast_hour)
        = ((List.range' i ps.length).filter (fun k => k % 3 = 0)).map
            (fun k => (k : ℤ)) := by
  induction ps with
  | nil =>
    intro i run pt _
    simp [impact_engine.forecastLoop]
  | cons fp rest ih =>
    intro i run pt hh
    have hfp : fp.forecast_for.hoursSinceEpoch = bt.hoursSinceEpoch + i := by
      have h0 := hh 0 (by simp)
      simpa using h0
    have hrest : ∀ j (hj : j < rest.length),
        (rest.get ⟨j, hj⟩).forecast_for.hoursSinceEpoch
          = bt.hoursSinceEpoch + (((i + 1 : ℕ) : ℚ) + (j : ℚ)) := by
      intro j hj
      have hs := hh (j + 1) (by simpa using Nat.succ_lt_succ hj)
      simp only [List.get_cons_succ] at hs
      rw [hs]
      push_cast
      ring
    simp only [impact_engine.forecastLoop, List.length_cons]
    by_cases hmod : i % 3 = 0
    · rw [if_neg (fun hc => hc hmod), List.map_cons, ih (i + 1) _ _ hrest,
        samplePoint_forecast_hour, hfp,
        show bt.hoursSinceEpoch + (i : ℚ) - bt.hoursSinceEpoch = (i : ℚ) by ring,
        pyInt_natCast, List.range'_succ, List.filter_cons]
      simp [hmod]
    · rw [if_pos hmod, ih (i + 1) _ _ hrest, List.range'_succ, List.filter_cons]
      simp [hmod]

/-- C8: for every forecast environment, zone and non-empty hourly timeline
`p0 :: rest` (point `j` is `j` hours after `p0`), the simulation emits a
`ForecastImpactPoint` exactly for every 3rd point: the emitted forecast-hour
offsets are the indices below the length that are ≡ 0 (mod 3).  For a
12-point hourly input this gives exactly 4 points at hour offsets
0, 3, 6, 9 (see the witness). -/
theorem C8_every_third_point (env : impact_engine.ForecastEnv)
    (zone : ZoneDefinition) (points : List ForecastPoint) (hne : points ≠ [])
    (hhourly : ∀ j (hj : j < points.length),
      (points.get ⟨j, hj⟩).forecast_for.hoursSinceEpoch
        = (points.head hne).forecast_for.hoursSinceEpoch + j) :
    (impact_engine.compute_zone_forecast_impacts env zone points).map
        (·.forecast_hour)
      = ((List.range points.length).filter (fun k => k % 3 = 0)).map
          (fun k => (k : ℤ)) := by
  rcases points with _ | ⟨p0, rest⟩
  · exact absurd rfl hne
  have hh : ∀ j (hj : j < (p0 :: rest).length),
      ((p0 :: rest).get ⟨j, hj⟩).forecast_for.hoursSinceEpoch
        = p0.forecast_for.hoursSinceEpoch + (((0 : ℕ) : ℚ) + (j : ℚ)) := by
    intro j hj
    rw [hhourly j hj]
    norm_num
  rw [List.range_eq_range']
  exact forecastLoop_hours env zone p0.forecast_for _ _ (p0 :: rest) 0 _ _ hh

/-- Witness for C8: on a 12-point hourly timeline the simulation emits
exactly 4 impact points, at hour offsets 0, 3, 6, 9. -/
theorem C8_every_third_point_witness :
    pts12.length = 12
    ∧ (impact_engine.compute_zone_forecast_impacts envTrivial zoneMan pts12).map
        (·.forecast_hour) = [0, 3, 6, 9] := by
  refine ⟨rfl, ?_⟩
  have h := C8_every_third_point envTrivial zoneMan pts12 (by simp [pts12]) ?_
  · rw [h]
    rfl
  · intro j hj
    have hj' : j < 12 := by simpa [pts12] using hj
    interval_cases j <;> norm_num [pts12]

end WeatherDome
